import Mathlib

/-!
Verification development for the Futuricty livability-scoring core
(`src/services/livabilityService.ts`, `src/services/cacheService.ts`,
`src/services/customPoiService.ts`).

The TypeScript source is shallowly embedded: JS numbers become real numbers,
raw OSM elements and their tag maps become structures of optional strings,
JS truthiness of a string/number is modelled explicitly, and the
classification / scoring / deduplication pipeline is translated function by
function.  Effectful orchestration (fetch with retries) is modelled by an
environment giving the outcome of each attempt per category.
-/

/-- The fixed ten-category enum of the scoring pipeline. -/
inductive Category where
  | health
  | education
  | market
  | transport
  | walkability
  | recreation
  | safety
  | accessibility
  | police
  | religious
deriving DecidableEq, Repr

/-- The string key of a category, as used throughout the TS source. -/
def catKey : Category → String
  | .health => "health"
  | .education => "education"
  | .market => "market"
  | .transport => "transport"
  | .walkability => "walkability"
  | .recreation => "recreation"
  | .safety => "safety"
  | .accessibility => "accessibility"
  | .police => "police"
  | .religious => "religious"

/-- Key order of `FACILITY_DISTANCES` (object insertion order, which is the
iteration order of `Object.keys` in the source orchestrator). -/
def categoriesOrder : List String :=
  ["health", "education", "market", "transport", "walkability",
   "recreation", "safety", "accessibility", "police", "religious"]

/-- `facilityCounts.hasOwnProperty(c)` / `categoryScores.hasOwnProperty(c)`:
a category string is recognised iff it is one of the ten fixed keys. -/
def parseCategory (s : String) : Option Category :=
  if s = "health" then some .health
  else if s = "education" then some .education
  else if s = "market" then some .market
  else if s = "transport" then some .transport
  else if s = "walkability" then some .walkability
  else if s = "recreation" then some .recreation
  else if s = "safety" then some .safety
  else if s = "accessibility" then some .accessibility
  else if s = "police" then some .police
  else if s = "religious" then some .religious
  else none

/-- The OSM tag fields the source reads (`element.tags?.x`).  A `none` field
is an absent (JS `undefined`) tag.  `custom` models the `{ custom: true }`
tag object attached to synthetic custom-POI facilities. -/
structure Tags where
  name : Option String := none
  amenity : Option String := none
  shop : Option String := none
  public_transport : Option String := none
  highway : Option String := none
  railway : Option String := none
  leisure : Option String := none
  sidewalk : Option String := none
  footway : Option String := none
  pedestrian : Option String := none
  route : Option String := none
  lit : Option String := none
  traffic_calming : Option String := none
  maxspeed : Option String := none
  zone_traffic : Option String := none
  natural : Option String := none
  landuse : Option String := none
  foot : Option String := none
  crossing : Option String := none
  bridge : Option String := none
  tunnel : Option String := none
  barrier : Option String := none
  kerb : Option String := none
  incline : Option String := none
  access : Option String := none
  tactile_paving : Option String := none
  wheelchair : Option String := none
  man_made : Option String := none
  surveillance_type : Option String := none
  crossing_ref : Option String := none
  custom : Bool := false
deriving Repr

/-- Optional-chained tag access `element.tags?.f`. -/
def tagv (t : Option Tags) (f : Tags → Option String) : Option String :=
  t.bind f

/-- JS truthiness of an optionally-present string: `undefined` and the empty
string are falsy. -/
def truthy (v : Option String) : Bool :=
  match v with
  | some s => !(s == "")
  | none => false

/-- `String.prototype.toLowerCase` (per character; the source data is ASCII). -/
def lowerStr (s : String) : String := ⟨s.data.map Char.toLower⟩

/-- Occurrence test on character lists backing `String.prototype.includes`. -/
def listContains : List Char → List Char → Bool
  | hay, needle =>
    match hay with
    | [] => needle.isEmpty
    | _ :: rest => needle.isPrefixOf hay || listContains rest needle

/-- `hay.includes(sub)`. -/
def containsStr (hay sub : String) : Bool := listContains hay.data sub.data

/-- `String.prototype.trim`. -/
def trimStr (s : String) : String :=
  ⟨((s.data.dropWhile Char.isWhitespace).reverse.dropWhile Char.isWhitespace).reverse⟩

/-- `element.tags?.name`. -/
def tagName (t : Option Tags) : Option String := t.bind Tags.name

/-- `element.tags.name.toLowerCase().includes(sub)` (with absent name giving
`false`, as the source always guards this with a truthiness check). -/
def nameHas (t : Option Tags) (sub : String) : Bool :=
  match tagName t with
  | some n => containsStr (lowerStr n) sub
  | none => false

/-- PRIORITY 1 predicate of the classifier: education facilities. -/
def eduRule (t : Option Tags) : Bool :=
  tagv t Tags.amenity == some "school" ||
  tagv t Tags.amenity == some "university" ||
  tagv t Tags.amenity == some "college" ||
  tagv t Tags.amenity == some "kindergarten" ||
  tagv t Tags.amenity == some "library" ||
  (truthy (tagName t) &&
    (nameHas t "sekolah" || nameHas t "sd " || nameHas t " smp" ||
     nameHas t " sma" || nameHas t "smk" || nameHas t "universitas" ||
     nameHas t "univ" || nameHas t "kampus" || nameHas t "tk" ||
     nameHas t "paud" || nameHas t "perpustakaan" || nameHas t "library"))

/-- PRIORITY 2 predicate of the classifier: police facilities. -/
def policeRule (t : Option Tags) : Bool :=
  tagv t Tags.amenity == some "police" ||
  (truthy (tagName t) &&
    (nameHas t "polisi" || nameHas t "polres" || nameHas t "polsek" ||
     nameHas t "polda" || nameHas t "satlantas" || nameHas t "satpol" ||
     nameHas t "pp" || nameHas t "police"))

/-- PRIORITY 3 predicate of the classifier: market/shop facilities. -/
def marketRule (t : Option Tags) : Bool :=
  truthy (tagv t Tags.shop) ||
  tagv t Tags.amenity == some "restaurant" ||
  tagv t Tags.amenity == some "cafe" ||
  tagv t Tags.amenity == some "fast_food" ||
  tagv t Tags.amenity == some "food_court" ||
  tagv t Tags.amenity == some "bar" ||
  tagv t Tags.amenity == some "pub" ||
  tagv t Tags.amenity == some "ice_cream" ||
  tagv t Tags.amenity == some "coffee_shop" ||
  tagv t Tags.amenity == some "fuel" ||
  tagv t Tags.amenity == some "gas_station" ||
  tagv t Tags.amenity == some "petrol_station" ||
  tagv t Tags.amenity == some "service_station" ||
  (tagv t Tags.amenity == some "community_centre" && truthy (tagName t) &&
    (nameHas t "pasar" || nameHas t "market" || nameHas t "pusat" ||
     nameHas t "center" || nameHas t "centre")) ||
  (truthy (tagName t) &&
    (nameHas t "spbu" || nameHas t "pom bensin" || nameHas t "gas station" ||
     nameHas t "petrol" || nameHas t "fuel" || nameHas t "bensin" ||
     nameHas t "solar" || nameHas t "pertamina" || nameHas t "shell" ||
     nameHas t "bp" || nameHas t "esso" || nameHas t "caltex" ||
     nameHas t "toko" || nameHas t "warung" || nameHas t "shop" ||
     nameHas t "store" || nameHas t "market" || nameHas t "mall" ||
     nameHas t "plaza"))

/-- PRIORITY 4 predicate of the classifier: health facilities. -/
def healthRule (t : Option Tags) : Bool :=
  tagv t Tags.amenity == some "hospital" ||
  tagv t Tags.amenity == some "clinic" ||
  tagv t Tags.amenity == some "doctors" ||
  tagv t Tags.amenity == some "dentist" ||
  tagv t Tags.amenity == some "pharmacy" ||
  tagv t Tags.amenity == some "veterinary" ||
  (truthy (tagName t) &&
    (nameHas t "rumah sakit" ||
     (nameHas t "rs " && !nameHas t "sekolah" && !nameHas t "sd" &&
      !nameHas t "smp" && !nameHas t "sma" && !nameHas t "smk") ||
     nameHas t "rsud" || nameHas t "klinik" || nameHas t "apotek" ||
     nameHas t "apotik" || nameHas t "dokter" || nameHas t "puskesmas" ||
     nameHas t "poli"))

/-- PRIORITY 5 predicate of the classifier: transport facilities. -/
def transportRule (t : Option Tags) : Bool :=
  tagv t Tags.public_transport == some "platform" ||
  tagv t Tags.public_transport == some "station" ||
  tagv t Tags.public_transport == some "stop_position" ||
  tagv t Tags.highway == some "bus_stop" ||
  tagv t Tags.railway == some "station" ||
  tagv t Tags.railway == some "halt" ||
  tagv t Tags.railway == some "tram_stop" ||
  (truthy (tagName t) &&
    (nameHas t "halte" || nameHas t "bus stop" || nameHas t "terminal" ||
     nameHas t "stasiun" || nameHas t "station" || nameHas t "mrt" ||
     nameHas t "lrt" || nameHas t "transjakarta" || nameHas t "angkot"))

/-- PRIORITY 6 predicate of the classifier: religious facilities. -/
def religiousRule (t : Option Tags) : Bool :=
  tagv t Tags.amenity == some "place_of_worship" ||
  tagv t Tags.amenity == some "mosque" ||
  tagv t Tags.amenity == some "church" ||
  tagv t Tags.amenity == some "temple" ||
  tagv t Tags.amenity == some "synagogue" ||
  tagv t Tags.amenity == some "hindu_temple" ||
  tagv t Tags.amenity == some "buddhist_temple" ||
  (truthy (tagName t) &&
    (nameHas t "masjid" || nameHas t "gudang" || nameHas t "gereja" ||
     nameHas t "katedral" || nameHas t "synagogue" ||
     nameHas t "hindu_temple" || nameHas t "buddhist_temple" ||
     nameHas t "pura" || nameHas t "candi" || nameHas t "vihara"))

/-- PRIORITY 7 predicate of the classifier: recreation facilities. -/
def recreationRule (t : Option Tags) : Bool :=
  tagv t Tags.leisure == some "park" ||
  tagv t Tags.leisure == some "playground" ||
  tagv t Tags.leisure == some "sports_centre" ||
  tagv t Tags.leisure == some "fitness_centre" ||
  tagv t Tags.leisure == some "swimming_pool" ||
  tagv t Tags.leisure == some "garden" ||
  tagv t Tags.amenity == some "cinema" ||
  tagv t Tags.amenity == some "theatre" ||
  tagv t Tags.amenity == some "community_centre" ||
  (truthy (tagName t) &&
    (nameHas t "taman" || nameHas t "park" || nameHas t "playground" ||
     nameHas t "kolam renang" || nameHas t "swimming" || nameHas t "gym" ||
     nameHas t "fitness" || nameHas t "bioskop" || nameHas t "cinema" ||
     nameHas t "teater" || nameHas t "theatre" || nameHas t "pusat komunitas"))

/-- PRIORITY 8 predicate of the classifier: walkability infrastructure. -/
def walkabilityRule (t : Option Tags) : Bool :=
  tagv t Tags.highway == some "footway" ||
  tagv t Tags.highway == some "pedestrian" ||
  tagv t Tags.highway == some "path" ||
  tagv t Tags.highway == some "steps" ||
  tagv t Tags.highway == some "bridleway" ||
  truthy (tagv t Tags.sidewalk) ||
  tagv t Tags.footway == some "sidewalk" ||
  tagv t Tags.footway == some "crossing" ||
  truthy (tagv t Tags.pedestrian) ||
  tagv t Tags.route == some "foot" ||
  tagv t Tags.route == some "hiking" ||
  tagv t Tags.route == some "walking" ||
  tagv t Tags.amenity == some "bench" ||
  tagv t Tags.amenity == some "drinking_water" ||
  tagv t Tags.highway == some "street_lamp" ||
  tagv t Tags.lit == some "yes" ||
  truthy (tagv t Tags.traffic_calming) ||
  truthy (tagv t Tags.maxspeed) ||
  truthy (tagv t Tags.zone_traffic) ||
  tagv t Tags.natural == some "tree_row" ||
  tagv t Tags.natural == some "hedge" ||
  tagv t Tags.landuse == some "grass" ||
  tagv t Tags.landuse == some "meadow" ||
  (tagv t Tags.highway == some "crossing" && tagv t Tags.foot == some "designated") ||
  (tagv t Tags.highway == some "crossing" && tagv t Tags.crossing == some "zebra") ||
  (tagv t Tags.highway == some "crossing" && tagv t Tags.crossing == some "traffic_signals") ||
  (tagv t Tags.highway == some "crossing" && tagv t Tags.crossing == some "uncontrolled") ||
  (tagv t Tags.bridge == some "yes" &&
    (tagv t Tags.highway == some "footway" || tagv t Tags.highway == some "pedestrian" ||
     tagv t Tags.highway == some "path")) ||
  (tagv t Tags.tunnel == some "yes" &&
    (tagv t Tags.highway == some "footway" || tagv t Tags.highway == some "pedestrian" ||
     tagv t Tags.highway == some "path"))

/-- PRIORITY 9 predicate of the classifier: accessibility features. -/
def accessibilityRule (t : Option Tags) : Bool :=
  tagv t Tags.barrier == some "kerb" ||
  tagv t Tags.kerb == some "lowered" ||
  tagv t Tags.kerb == some "flush" ||
  tagv t Tags.highway == some "elevator" ||
  (tagv t Tags.highway == some "steps" && truthy (tagv t Tags.incline)) ||
  (tagv t Tags.amenity == some "parking" && tagv t Tags.access == some "designated") ||
  tagv t Tags.tactile_paving == some "yes" ||
  (tagv t Tags.amenity == some "toilets" && tagv t Tags.wheelchair == some "yes")

/-- PRIORITY 10 predicate of the classifier: safety features (catch-all). -/
def safetyRule (t : Option Tags) : Bool :=
  tagv t Tags.highway == some "street_lamp" ||
  tagv t Tags.lit == some "yes" ||
  tagv t Tags.highway == some "crossing" ||
  truthy (tagv t Tags.traffic_calming) ||
  truthy (tagv t Tags.maxspeed) ||
  truthy (tagv t Tags.sidewalk) ||
  tagv t Tags.amenity == some "fire_station" ||
  tagv t Tags.amenity == some "hospital" ||
  tagv t Tags.man_made == some "surveillance" ||
  tagv t Tags.surveillance_type == some "camera"

/-- The ordered-priority category classifier of `processFacilities`: the
cascaded if/else chain determining `actualCategory` from the raw tags, with
the query-bucket category as the fallback. -/
def classifyElement (tags : Option Tags) (category : String) : String :=
  if eduRule tags then "education"
  else if policeRule tags then "police"
  else if marketRule tags then "market"
  else if healthRule tags then "health"
  else if transportRule tags then "transport"
  else if religiousRule tags then "religious"
  else if recreationRule tags then "recreation"
  else if walkabilityRule tags then "walkability"
  else if accessibilityRule tags then "accessibility"
  else if safetyRule tags then "safety"
  else category

/-- First JS-truthy string of a `||` fallback chain, with a final default. -/
def firstTruthyStr : List (Option String) → String → String
  | [], dflt => dflt
  | v :: rest, dflt =>
    match v with
    | some s => if s = "" then firstTruthyStr rest dflt else s
    | none => firstTruthyStr rest dflt

/-- Display-name resolution of `processFacilities` (the `name = element.tags?.name
|| element.tags?.shop || ... || actualCategory + " facility"` chain). -/
def facilityName (tags : Option Tags) (actualCategory : String) : String :=
  firstTruthyStr
    [tagv tags Tags.name, tagv tags Tags.shop, tagv tags Tags.amenity,
     tagv tags Tags.leisure, tagv tags Tags.highway, tagv tags Tags.traffic_calming,
     tagv tags Tags.crossing_ref, tagv tags Tags.man_made, tagv tags Tags.barrier,
     tagv tags Tags.kerb, tagv tags Tags.wheelchair, tagv tags Tags.tactile_paving]
    (actualCategory ++ " facility")


/-- `Math.atan2(y, x)` (standard two-argument arctangent). -/
noncomputable def atan2 (y x : ℝ) : ℝ :=
  if 0 < x then Real.arctan (y / x)
  else if x < 0 ∧ 0 ≤ y then Real.arctan (y / x) + Real.pi
  else if x < 0 ∧ y < 0 then Real.arctan (y / x) - Real.pi
  else if x = 0 ∧ 0 < y then Real.pi / 2
  else if x = 0 ∧ y < 0 then -(Real.pi / 2)
  else 0

/-- `calculateDistance` (Haversine, Earth radius 6371000 m), as in both
`livabilityService.ts` and `customPoiService.ts`. -/
noncomputable def calculateDistance (lat1 lng1 lat2 lng2 : ℝ) : ℝ :=
  let R : ℝ := 6371000
  let dLat := (lat2 - lat1) * Real.pi / 180
  let dLng := (lng2 - lng1) * Real.pi / 180
  let a :=
    Real.sin (dLat / 2) * Real.sin (dLat / 2) +
      Real.cos (lat1 * Real.pi / 180) * Real.cos (lat2 * Real.pi / 180) *
        Real.sin (dLng / 2) * Real.sin (dLng / 2)
  let c := 2 * atan2 (Real.sqrt a) (Real.sqrt (1 - a))
  R * c

/-- One entry of the per-category `decayConfig` table. -/
structure DecayConfig where
  maxDistance : ℝ
  maxContribution : ℝ
  decayRate : ℝ

/-- The `decayConfig` lookup of `calculateDistanceContribution`: the table of
the ten categories, falling back to the `health` entry for any other key
(`decayConfig[category] || decayConfig.health`). -/
def configFor (category : String) : DecayConfig :=
  if category = "health" then ⟨1000, 10, 0.8⟩
  else if category = "education" then ⟨1000, 10, 0.9⟩
  else if category = "market" then ⟨1000, 8, 0.85⟩
  else if category = "transport" then ⟨1000, 10, 0.95⟩
  else if category = "walkability" then ⟨1000, 12, 0.85⟩
  else if category = "recreation" then ⟨1000, 8, 0.8⟩
  else if category = "safety" then ⟨1000, 6, 0.7⟩
  else if category = "accessibility" then ⟨1000, 4, 0.9⟩
  else if category = "police" then ⟨1000, 8, 0.6⟩
  else if category = "religious" then ⟨1000, 6, 0.75⟩
  else ⟨1000, 10, 0.8⟩

/-- `calculateDistanceContribution`: gradual decay with a 10 percent floor
inside the radius, zero beyond it.  `Math.pow` on the nonnegative bases that
occur here is real exponentiation (`Real.rpow`). -/
noncomputable def calculateDistanceContribution (distance : ℝ) (category : String) : ℝ :=
  let config := configFor category
  if distance > config.maxDistance then 0
  else
    let normalizedDistance := distance / config.maxDistance
    let contribution := config.maxContribution * (1 - normalizedDistance) ^ config.decayRate
    let minContribution := config.maxContribution * 0.1
    max contribution minContribution

/-- A raw Overpass element: optional numeric id, optional point coordinate,
optional `center` coordinate (for ways/areas), optional tag map. -/
structure Element where
  id : Option Nat := none
  lat : Option ℝ := none
  lon : Option ℝ := none
  centerLat : Option ℝ := none
  centerLon : Option ℝ := none
  tags : Option Tags := none

/-- JS `v || w` on an optionally-present number: `undefined` and `0` fall
through to the fallback. -/
noncomputable def jsNumOr (v : Option ℝ) (w : ℝ) : ℝ :=
  match v with
  | some x => if x = 0 then w else x
  | none => w

/-- `element.lat || (element.center && element.center.lat) || 0`. -/
noncomputable def elementLat (e : Element) : ℝ := jsNumOr e.lat (jsNumOr e.centerLat 0)

/-- `element.lon || (element.center && element.center.lon) || 0`. -/
noncomputable def elementLng (e : Element) : ℝ := jsNumOr e.lon (jsNumOr e.centerLon 0)

/-- `${element.id || index}` (a JS numeric id of 0 is falsy). -/
def elementIdStr (id : Option Nat) (index : Nat) : String :=
  match id with
  | some n => if n = 0 then toString index else toString n
  | none => toString index

/-- A classified, scored facility record. -/
structure Facility where
  id : String
  name : String
  category : String
  lng : ℝ
  lat : ℝ
  distance : ℝ
  contribution : ℝ
  tags : Option Tags := none

/-- The map stage of `processFacilities`: classify one raw element and build
its `Facility` record (`distance` stores the `Math.round`ed value). -/
noncomputable def buildFacility (category : String) (userLat userLng : ℝ)
    (index : Nat) (e : Element) : Facility :=
  let lat := elementLat e
  let lng := elementLng e
  let distance := calculateDistance userLat userLng lat lng
  let actualCategory := classifyElement e.tags category
  { id := actualCategory ++ "-" ++ elementIdStr e.id index
    name := facilityName e.tags actualCategory
    category := actualCategory
    lng := lng
    lat := lat
    distance := ((round distance : ℤ) : ℝ)
    contribution := calculateDistanceContribution distance actualCategory
    tags := e.tags }

/-- The per-category max-distance table of the filter stage (all currently
1000 m, falling back to 1000). -/
def filterMaxDistance (category : String) : ℝ :=
  if category = "health" then 1000
  else if category = "education" then 1000
  else if category = "market" then 1000
  else if category = "transport" then 1000
  else if category = "walkability" then 1000
  else if category = "recreation" then 1000
  else if category = "safety" then 1000
  else if category = "accessibility" then 1000
  else if category = "police" then 1000
  else if category = "religious" then 1000
  else 1000

/-- The name-similarity part of the duplicate test: lowercased, trimmed
names equal, one containing the other, or both containing "sd" or both
containing "sekolah". -/
def nameSimilarB (existing facility : String) : Bool :=
  let existingName := trimStr (lowerStr existing)
  let facilityName := trimStr (lowerStr facility)
  (existingName == facilityName) ||
  containsStr existingName facilityName ||
  containsStr facilityName existingName ||
  (containsStr existingName "sd" && containsStr facilityName "sd") ||
  (containsStr existingName "sekolah" && containsStr facilityName "sekolah")

/-- The proximity-and-name duplicate test of the dedup pass: within 50 m and
similar names. -/
noncomputable def isDuplicateB (existing facility : Facility) : Bool :=
  let coordDistance := calculateDistance existing.lat existing.lng facility.lat facility.lng
  decide (coordDistance < 50) && nameSimilarB existing.name facility.name

/-- One step of the `reduce` implementing the proximity+name dedup: append a
non-duplicate, else keep whichever of the pair has the higher contribution
(replacing in place). -/
noncomputable def dedupeStep (acc : List Facility) (facility : Facility) : List Facility :=
  match acc.findIdx? (fun existing => isDuplicateB existing facility) with
  | none => acc ++ [facility]
  | some i =>
    if facility.contribution > (acc.getD i facility).contribution
    then acc.set i facility
    else acc

/-- The proximity+name dedup pass (`uniqueFacilities` reduce). -/
noncomputable def dedupeFacilities (l : List Facility) : List Facility :=
  l.foldl dedupeStep []

/-- One step of the identity dedup pass: drop a record whose `id` already
occurred, append it otherwise. -/
noncomputable def dedupeByIdStep (acc : List Facility) (facility : Facility) : List Facility :=
  match acc.findIdx? (fun existing => existing.id == facility.id) with
  | none => acc ++ [facility]
  | some _ => acc

/-- The identity dedup pass (`finalFacilities` reduce). -/
noncomputable def dedupeById (l : List Facility) : List Facility :=
  l.foldl dedupeByIdStep []

/-- `processFacilities`: map raw elements to facilities, filter by the
classified category's max distance (on the rounded distance), then apply the
two dedup passes. -/
noncomputable def processFacilities (elements : List Element) (category : String)
    (userLat userLng : ℝ) : List Facility :=
  let facilities :=
    (elements.mapIdx (fun index e => buildFacility category userLat userLng index e)).filter
      (fun f => decide (f.distance ≤ filterMaxDistance f.category))
  dedupeById (dedupeFacilities facilities)

/-- The four sub-scores returned by `calculateSubScores`. -/
structure SubScores where
  services : ℝ
  mobility : ℝ
  safety : ℝ
  environment : ℝ

/-- The `cap` helper of `calculateSubScores`: `Math.min(100, Math.round(val))`.
JS `Math.round` is round-half-up, which is Mathlib `round`. -/
noncomputable def cap (val : ℝ) : ℝ := min 100 ((round val : ℤ) : ℝ)

/-- `calculateSubScores` over the per-category contribution sums (the `counts`
parameter is accepted but unused by the formulas, as in the source). -/
noncomputable def calculateSubScores (categoryScores : Category → ℝ)
    (_counts : Category → ℕ) : SubScores :=
  { services :=
      cap (categoryScores .health * 1.2 + categoryScores .education * 1.0 +
        categoryScores .market * 0.8 + categoryScores .religious * 0.8)
    mobility :=
      cap (categoryScores .transport * 1.5 + categoryScores .walkability * 0.5)
    safety :=
      cap (categoryScores .safety * 0.6 + categoryScores .police * 2.0 +
        categoryScores .health * 0.8 + categoryScores .accessibility * 1.0)
    environment := cap (categoryScores .recreation * 2.5) }

/-- `facility.tags?.highway === 'street_lamp' || facility.tags?.lit === 'yes'`. -/
def isLighting (f : Facility) : Bool :=
  tagv f.tags Tags.highway == some "street_lamp" || tagv f.tags Tags.lit == some "yes"

/-- `facility.tags?.amenity === 'fire_station'`. -/
def isMajorSafety (f : Facility) : Bool :=
  tagv f.tags Tags.amenity == some "fire_station"

/-- Pointwise bump of a count map. -/
def bumpCount (counts : Category → ℕ) (c : Category) : Category → ℕ :=
  fun c' => if c' = c then counts c + 1 else counts c'

/-- Pointwise addition into a score map. -/
def addScore (scores : Category → ℝ) (c : Category) (v : ℝ) : Category → ℝ :=
  fun c' => if c' = c then scores c' + v else scores c'

/-- The accumulation step of the orchestrator's `results.forEach` body for one
API-sourced facility: guarded by `hasOwnProperty`, increments the count, and
adds the contribution with the category-specific dampening (walkability at
0.25 with a lighting spillover into safety; safety split between fire
stations at full value and other infrastructure at 0.25; all other
categories at full value). -/
noncomputable def accumulateFacility (st : (Category → ℕ) × (Category → ℝ))
    (facility : Facility) : (Category → ℕ) × (Category → ℝ) :=
  match parseCategory facility.category with
  | none => st
  | some c =>
    let counts := bumpCount st.1 c
    let scores :=
      if facility.category = "walkability" then
        let reducedContribution := facility.contribution * 0.25
        let s := addScore st.2 .walkability reducedContribution
        if isLighting facility then addScore s .safety reducedContribution else s
      else if facility.category = "safety" then
        if isMajorSafety facility then addScore st.2 .safety facility.contribution
        else addScore st.2 .safety (facility.contribution * 0.25)
      else addScore st.2 c facility.contribution
    (counts, scores)

/-- The accumulation step for one custom-POI facility (`customFacilities.forEach`):
guarded by `hasOwnProperty`, increments the count and adds the raw
contribution (no dampening). -/
noncomputable def accumulateCustom (st : (Category → ℕ) × (Category → ℝ))
    (facility : Facility) : (Category → ℕ) × (Category → ℝ) :=
  match parseCategory facility.category with
  | none => st
  | some c => (bumpCount st.1 c, addScore st.2 c facility.contribution)

/-- Outcome environment for the fetch orchestrator: for every category, the
list of successive attempt outcomes of `queryOverpassAPI` (`none` = the
attempt throws, `some elements` = the attempt succeeds). -/
def FetchEnv : Type := String → List (Option (List Element))

/-- `fetchCategoryWithRetry` with a cold cache, observed through its value:
up to 4 attempts (`retries = 3`); the first successful attempt's elements are
processed into facilities; if all attempts fail the orchestrator's outer
`catch` substitutes the empty facility list.  Backoff timing does not affect
the resulting value. -/
noncomputable def fetchCategoryWithRetry (env : FetchEnv) (lat lng : ℝ)
    (category : String) : List Facility :=
  match ((env category).take 4).findSome? id with
  | some elements => processFacilities elements category lat lng
  | none => []

/-- All API-sourced facilities of one scoring run, in category order. -/
noncomputable def apiFacilities (env : FetchEnv) (lat lng : ℝ) : List Facility :=
  categoriesOrder.flatMap (fun category => fetchCategoryWithRetry env lat lng category)

/-- Counts and contribution sums after the `results.forEach` accumulation. -/
noncomputable def apiTotals (env : FetchEnv) (lat lng : ℝ) :
    (Category → ℕ) × (Category → ℝ) :=
  (apiFacilities env lat lng).foldl accumulateFacility (fun _ => 0, fun _ => 0)

/-- A stored custom point of interest. -/
structure CustomPOI where
  id : String
  name : String
  category : String
  lng : ℝ
  lat : ℝ

/-- `customPoiService.getPOIsNearLocation`: the stored POIs within
`radiusMeters` of the location. -/
noncomputable def getPOIsNearLocation (allPOIs : List CustomPOI) (lat lng : ℝ)
    (radiusMeters : ℝ) : List CustomPOI :=
  allPOIs.filter (fun poi => decide (calculateDistance lat lng poi.lat poi.lng ≤ radiusMeters))

/-- Conversion of one custom POI into a synthetic `Facility` (the
`customFacilities` map): same distance-contribution function, computed on the
raw POI category string; the legacy category `custom` is stored as
`recreation`. -/
noncomputable def customFacility (lat lng : ℝ) (poi : CustomPOI) : Facility :=
  let distance := calculateDistance lat lng poi.lat poi.lng
  { id := poi.id
    name := poi.name ++ " (Custom)"
    category := if poi.category = "custom" then "recreation" else poi.category
    lng := poi.lng
    lat := poi.lat
    distance := ((round distance : ℤ) : ℝ)
    contribution := calculateDistanceContribution distance poi.category
    tags := some { custom := true } }

/-- The synthetic facilities of the custom POIs within 1000 m. -/
noncomputable def customFacilitiesOf (allPOIs : List CustomPOI) (lat lng : ℝ) :
    List Facility :=
  (getPOIsNearLocation allPOIs lat lng 1000).map (customFacility lat lng)

/-- Counts and contribution sums after both accumulation loops (API facilities
first, then custom POIs). -/
noncomputable def totalsOf (env : FetchEnv) (allPOIs : List CustomPOI) (lat lng : ℝ) :
    (Category → ℕ) × (Category → ℝ) :=
  (customFacilitiesOf allPOIs lat lng).foldl accumulateCustom (apiTotals env lat lng)

/-- The result of `calculateLivabilityScore` (`data` plus the facility list). -/
structure LivResult where
  overall : ℝ
  subscores : SubScores
  address : String
  coordLng : ℝ
  coordLat : ℝ
  facilityCounts : Category → ℕ
  facilities : List Facility

/-- `calculateLivabilityScore` on the success/failure outcomes recorded in
`env` and the stored custom POIs: sequential per-category fetch with retries
degrading to empty lists, accumulation with dampening, custom-POI merge, and
weighted aggregation of the four capped sub-scores. -/
noncomputable def calculateLivabilityScore (env : FetchEnv) (allPOIs : List CustomPOI)
    (lat lng : ℝ) (address : String) : LivResult :=
  let totals := totalsOf env allPOIs lat lng
  let subscores := calculateSubScores totals.2 totals.1
  { overall :=
      subscores.services * 0.3 + subscores.mobility * 0.25 +
        subscores.safety * 0.25 + subscores.environment * 0.2
    subscores := subscores
    address := address
    coordLng := lng
    coordLat := lat
    facilityCounts := totals.1
    facilities := apiFacilities env lat lng ++ customFacilitiesOf allPOIs lat lng }

/-- ToInt32 coercion of JS bitwise operations (wrap to a signed 32-bit value). -/
def toInt32 (n : Int) : Int := (n + 2 ^ 31) % 2 ^ 32 - 2 ^ 31

/-- One step of `cacheUtils.hash`:
`hash = (hash << 5) - hash + charCode; hash = hash & hash`. -/
def jsHashStep (h : Int) (c : Char) : Int := toInt32 (toInt32 (h * 32) - h + c.toNat)

/-- `cacheUtils.hash` over the characters of the string (the source data is
ASCII, so code points coincide with UTF-16 code units). -/
def jsHash (s : List Char) : Int := s.foldl jsHashStep 0

/-- `query.replace(/{lat}/g, latStr)`: global left-to-right replacement of
the five-character placeholder. -/
def replaceLat (repl : List Char) : List Char → List Char
  | '\x7b' :: 'l' :: 'a' :: 't' :: '\x7d' :: rest => repl ++ replaceLat repl rest
  | c :: rest => c :: replaceLat repl rest
  | [] => []

/-- `query.replace(/{lng}/g, lngStr)`. -/
def replaceLng (repl : List Char) : List Char → List Char
  | '\x7b' :: 'l' :: 'n' :: 'g' :: '\x7d' :: rest => repl ++ replaceLng repl rest
  | c :: rest => c :: replaceLng repl rest
  | [] => []

/-- The `formattedQuery` of `queryOverpassAPI`: substitute the stringified
coordinates into the query template (`{lat}` first, then `{lng}`). -/
def formatOverpassQuery (query latStr lngStr : String) : String :=
  ⟨replaceLng lngStr.data (replaceLat latStr.data query.data)⟩

/-- `CacheService.generateKey`: sorted `key:value` parameter pairs joined by
`|`, prefixed by `prefix:`. -/
def generateKey (pre : String) (params : List (String × String)) : String :=
  let sortedParams :=
    String.intercalate "|"
      ((params.insertionSort (fun a b => a.1 ≤ b.1)).map (fun kv => kv.1 ++ ":" ++ kv.2))
  pre ++ ":" ++ sortedParams

/-- The cache key used by `cacheLocationData` (via `cacheAPI`): prefix
`location-` plus the data type, with the coordinate rendered by
`toFixed(3)` as the parameters. -/
def cacheLocationDataKey (dataType latFixed lngFixed : String) : String :=
  generateKey ("location-" ++ dataType) [("lat", latFixed), ("lng", lngFixed)]

/-- A JS number observed through the two renderings the cache path uses:
`toString()` (interpolated into the Overpass query) and `toFixed(3)` (the
rounded cache parameter).  Number-to-decimal formatting itself is outside
the embedded core, so both renderings are carried as data. -/
structure JsNum where
  str : String
  fixed3 : String

/-- The `police` entry of `generateOverpassQuery` with its distance (1000)
interpolated, used as a representative category query text.  The template
literal is assembled from short pieces around the `\x7blat\x7d` and
`\x7blng\x7d` placeholders (the concatenation is exactly the source
literal); the pieces keep later evaluation proofs within kernel recursion
limits. -/
def latPh : List Char := ['\x7b', 'l', 'a', 't', '\x7d']

def lngPh : List Char := ['\x7b', 'l', 'n', 'g', '\x7d']

def polTplChars : List Char :=
  ("\n      [out:json];\n      (\n ").data ++ (("       // Police stations an").data ++ (("d related facilities\n       ").data ++ ((" node[\"amenity\"=\"police\"](ar").data ++ (("ound:1000,").data ++ (latPh ++ ((",").data ++ (lngPh ++ ((");\n        way[\"amenity\"=\"po").data ++ (("lice\"](around:1000,").data ++ (latPh ++ ((",").data ++ (lngPh ++ ((");\n        node[\"name\"~\"^(po").data ++ (("lisi|polres|polsek|polda|sat").data ++ (("lantas|satpol|pp|police)\"](a").data ++ (("round:1000,").data ++ (latPh ++ ((",").data ++ (lngPh ++ ((");\n        way[\"name\"~\"^(pol").data ++ (("isi|polres|polsek|polda|satl").data ++ (("antas|satpol|pp|police)\"](ar").data ++ (("ound:1000,").data ++ (latPh ++ ((",").data ++ (lngPh ++ ((");\n      );\n      out center").data ++ ((";\n    ").data ++ ([] : List Char)))))))))))))))))))))))))))))

def overpassQueryPolice : String := ⟨polTplChars⟩

def fqAChars : List Char :=
  ("\n      [out:json];\n      (\n ").data ++ (("       // Police stations an").data ++ (("d related facilities\n       ").data ++ ((" node[\"amenity\"=\"police\"](ar").data ++ (("ound:1000,").data ++ (("0.0001").data ++ ((",").data ++ (("0").data ++ ((");\n        way[\"amenity\"=\"po").data ++ (("lice\"](around:1000,").data ++ (("0.0001").data ++ ((",").data ++ (("0").data ++ ((");\n        node[\"name\"~\"^(po").data ++ (("lisi|polres|polsek|polda|sat").data ++ (("lantas|satpol|pp|police)\"](a").data ++ (("round:1000,").data ++ (("0.0001").data ++ ((",").data ++ (("0").data ++ ((");\n        way[\"name\"~\"^(pol").data ++ (("isi|polres|polsek|polda|satl").data ++ (("antas|satpol|pp|police)\"](ar").data ++ (("ound:1000,").data ++ (("0.0001").data ++ ((",").data ++ (("0").data ++ ((");\n      );\n      out center").data ++ ((";\n    ").data ++ ([] : List Char)))))))))))))))))))))))))))))

def fqBChars : List Char :=
  ("\n      [out:json];\n      (\n ").data ++ (("       // Police stations an").data ++ (("d related facilities\n       ").data ++ ((" node[\"amenity\"=\"police\"](ar").data ++ (("ound:1000,").data ++ (("0.0002").data ++ ((",").data ++ (("0").data ++ ((");\n        way[\"amenity\"=\"po").data ++ (("lice\"](around:1000,").data ++ (("0.0002").data ++ ((",").data ++ (("0").data ++ ((");\n        node[\"name\"~\"^(po").data ++ (("lisi|polres|polsek|polda|sat").data ++ (("lantas|satpol|pp|police)\"](a").data ++ (("round:1000,").data ++ (("0.0002").data ++ ((",").data ++ (("0").data ++ ((");\n        way[\"name\"~\"^(pol").data ++ (("isi|polres|polsek|polda|satl").data ++ (("antas|satpol|pp|police)\"](ar").data ++ (("ound:1000,").data ++ (("0.0002").data ++ ((",").data ++ (("0").data ++ ((");\n      );\n      out center").data ++ ((";\n    ").data ++ ([] : List Char)))))))))))))))))))))))))))))

/-- The cache key under which `queryOverpassAPI` reads and writes the
elements of one category query: the data type embeds
`cacheUtils.hash(formattedQuery)` where `formattedQuery` contains the
full-precision coordinates, and the parameters are the coordinates rounded
to 3 decimals. -/
def overpassCacheKey (query : String) (lat lng : JsNum) : String :=
  let formattedQuery := formatOverpassQuery query lat.str lng.str
  cacheLocationDataKey ("overpass-" ++ toString (jsHash formattedQuery.data))
    lat.fixed3 lng.fixed3

/-- Tag map of a raw element tagged `amenity=hospital` (fixture for concrete
evaluations). -/
def hospitalTags : Tags := { amenity := some "hospital" }

/-- A raw `amenity=hospital` element with id 7 and no coordinates (they
default to 0,0). -/
def hospitalElement : Element := { id := some 7, tags := some hospitalTags }

/-- Environment in which every attempt for the health category fails and the
safety query returns one hospital-tagged element. -/
def envC4 : FetchEnv := fun c =>
  if c = "health" then [none, none, none, none]
  else if c = "safety" then [some [hospitalElement]] else [some []]

/-- The facility the pipeline builds from `hospitalElement` at the origin. -/
def hospitalFacility : Facility :=
  ⟨"health-7", "hospital", "health", 0, 0, 0, 10, some hospitalTags⟩

/-- Fixtures for the dedup counterexample: three elements at the origin with
names "x", "y", "xy". -/
def tagsA : Tags := { name := some "x", amenity := some "police" }

def tagsB : Tags := { name := some "y", amenity := some "police" }

def tagsC : Tags := { name := some "xy", amenity := some "school" }

def elemA : Element := { id := some 1, tags := some tagsA }

def elemB : Element := { id := some 2, tags := some tagsB }

def elemC : Element := { id := some 3, tags := some tagsC }

def facA : Facility := ⟨"police-1", "x", "police", 0, 0, 0, 8, some tagsA⟩

def facB : Facility := ⟨"police-2", "y", "police", 0, 0, 0, 8, some tagsB⟩

def facC : Facility := ⟨"education-3", "xy", "education", 0, 0, 0, 10, some tagsC⟩

/-- A hospital element on the equator whose Haversine distance from the
origin lies strictly between 1000 and 1000.5 metres. -/
def farHospitalElement : Element :=
  { id := some 9, lon := some 0.008995, tags := some hospitalTags }

/-- The facility built from `farHospitalElement`: rounded distance 1000 m
(so it passes the filter) but zero contribution (the unrounded distance
exceeds 1000 m). -/
def farFacility : Facility :=
  ⟨"health-9", "hospital", "health", 0.008995, 0, 1000, 0, some hospitalTags⟩

/-! ### General helper lemmas -/

lemma atan2_zero_one : atan2 0 1 = 0 := by
  unfold atan2
  rw [if_pos one_pos]
  simp [Real.arctan_zero]

lemma calculateDistance_self (lat lng : ℝ) : calculateDistance lat lng lat lng = 0 := by
  unfold calculateDistance
  simp [sub_self, Real.sin_zero, Real.sqrt_zero, Real.sqrt_one, atan2_zero_one]

lemma cdc_beyond (d : ℝ) (s : String) (h : d > (configFor s).maxDistance) :
    calculateDistanceContribution d s = 0 := by
  unfold calculateDistanceContribution
  rw [if_pos h]

lemma cdc_inside (d : ℝ) (s : String) (h : ¬ d > (configFor s).maxDistance) :
    calculateDistanceContribution d s =
      max ((configFor s).maxContribution *
            (1 - d / (configFor s).maxDistance) ^ (configFor s).decayRate)
          ((configFor s).maxContribution * 0.1) := by
  unfold calculateDistanceContribution
  rw [if_neg h]

lemma cdc_floor_or_zero (d : ℝ) (s : String) :
    0.1 * (configFor s).maxContribution ≤ calculateDistanceContribution d s ∨
    calculateDistanceContribution d s = 0 := by
  rcases lt_or_le (configFor s).maxDistance d with h | h
  · exact Or.inr (cdc_beyond d s h)
  · refine Or.inl ?_
    rw [cdc_inside d s (not_lt.mpr h), mul_comm (0.1 : ℝ)]
    exact le_max_right _ _

lemma cdc_nonneg (d : ℝ) (s : String) (hmc : 0 ≤ (configFor s).maxContribution) :
    0 ≤ calculateDistanceContribution d s := by
  rcases cdc_floor_or_zero d s with h | h
  · have : (0:ℝ) ≤ 0.1 * (configFor s).maxContribution := by positivity
    linarith
  · rw [h]

lemma cdc_anti (s : String) (hmd : 0 < (configFor s).maxDistance)
    (hmc : 0 < (configFor s).maxContribution)
    (hdr : 0 ≤ (configFor s).decayRate) {d1 d2 : ℝ} (_h1 : 0 ≤ d1) (h12 : d1 ≤ d2) :
    calculateDistanceContribution d2 s ≤ calculateDistanceContribution d1 s := by
  rcases lt_or_le (configFor s).maxDistance d2 with h2 | h2
  · rw [cdc_beyond d2 s h2]
    exact cdc_nonneg d1 s hmc.le
  · have hd1 : ¬ d1 > (configFor s).maxDistance := not_lt.mpr (h12.trans h2)
    have hd2 : ¬ d2 > (configFor s).maxDistance := not_lt.mpr h2
    rw [cdc_inside d1 s hd1, cdc_inside d2 s hd2]
    refine max_le_max (mul_le_mul_of_nonneg_left ?_ hmc.le) le_rfl
    refine Real.rpow_le_rpow ?_ ?_ hdr
    · rw [sub_nonneg, div_le_one hmd]
      exact h2
    · have : d1 / (configFor s).maxDistance ≤ d2 / (configFor s).maxDistance := by
        gcongr
      linarith

lemma configFor_health : configFor "health" = ⟨1000, 10, 0.8⟩ := rfl

lemma configFor_education : configFor "education" = ⟨1000, 10, 0.9⟩ := rfl

lemma configFor_market : configFor "market" = ⟨1000, 8, 0.85⟩ := rfl

lemma configFor_transport : configFor "transport" = ⟨1000, 10, 0.95⟩ := rfl

lemma configFor_walkability : configFor "walkability" = ⟨1000, 12, 0.85⟩ := rfl

lemma configFor_recreation : configFor "recreation" = ⟨1000, 8, 0.8⟩ := rfl

lemma configFor_safety : configFor "safety" = ⟨1000, 6, 0.7⟩ := rfl

lemma configFor_accessibility : configFor "accessibility" = ⟨1000, 4, 0.9⟩ := rfl

lemma configFor_police : configFor "police" = ⟨1000, 8, 0.6⟩ := rfl

lemma configFor_religious : configFor "religious" = ⟨1000, 6, 0.75⟩ := rfl

lemma configFor_catKey (c : Category) :
    (configFor (catKey c)).maxDistance = 1000 ∧
    0 < (configFor (catKey c)).maxContribution ∧
    0 ≤ (configFor (catKey c)).decayRate := by
  cases c <;>
    norm_num [catKey, configFor_health, configFor_education, configFor_market,
      configFor_transport, configFor_walkability, configFor_recreation,
      configFor_safety, configFor_accessibility, configFor_police, configFor_religious]

/-! ### Evaluation lemmas for the Overpass cache key -/

lemma replaceLat_latPh (r t : List Char) : replaceLat r (latPh ++ t) = r ++ replaceLat r t := rfl
lemma replaceLat_lngPh (r t : List Char) : replaceLat r (lngPh ++ t) = lngPh ++ replaceLat r t := rfl
lemma replaceLng_lngPh (r t : List Char) : replaceLng r (lngPh ++ t) = r ++ replaceLng r t := rfl
lemma replaceLat_nil (r : List Char) : replaceLat r [] = [] := rfl
lemma replaceLng_nil (r : List Char) : replaceLng r [] = [] := rfl

lemma replat_r1 (r t : List Char) :
    replaceLat r (("\n      [out:json];\n      (\n ").data ++ t) = ("\n      [out:json];\n      (\n ").data ++ replaceLat r t := rfl

lemma replng_r1 (r t : List Char) :
    replaceLng r (("\n      [out:json];\n      (\n ").data ++ t) = ("\n      [out:json];\n      (\n ").data ++ replaceLng r t := rfl

lemma replat_r2 (r t : List Char) :
    replaceLat r (("       // Police stations an").data ++ t) = ("       // Police stations an").data ++ replaceLat r t := rfl

lemma replng_r2 (r t : List Char) :
    replaceLng r (("       // Police stations an").data ++ t) = ("       // Police stations an").data ++ replaceLng r t := rfl

lemma replat_r3 (r t : List Char) :
    replaceLat r (("d related facilities\n       ").data ++ t) = ("d related facilities\n       ").data ++ replaceLat r t := rfl

lemma replng_r3 (r t : List Char) :
    replaceLng r (("d related facilities\n       ").data ++ t) = ("d related facilities\n       ").data ++ replaceLng r t := rfl

lemma replat_r4 (r t : List Char) :
    replaceLat r ((" node[\"amenity\"=\"police\"](ar").data ++ t) = (" node[\"amenity\"=\"police\"](ar").data ++ replaceLat r t := rfl

lemma replng_r4 (r t : List Char) :
    replaceLng r ((" node[\"amenity\"=\"police\"](ar").data ++ t) = (" node[\"amenity\"=\"police\"](ar").data ++ replaceLng r t := rfl

lemma replat_r5 (r t : List Char) :
    replaceLat r (("ound:1000,").data ++ t) = ("ound:1000,").data ++ replaceLat r t := rfl

lemma replng_r5 (r t : List Char) :
    replaceLng r (("ound:1000,").data ++ t) = ("ound:1000,").data ++ replaceLng r t := rfl

lemma replat_r6 (r t : List Char) :
    replaceLat r ((",").data ++ t) = (",").data ++ replaceLat r t := rfl

lemma replng_r6 (r t : List Char) :
    replaceLng r ((",").data ++ t) = (",").data ++ replaceLng r t := rfl

lemma replat_r7 (r t : List Char) :
    replaceLat r ((");\n        way[\"amenity\"=\"po").data ++ t) = (");\n        way[\"amenity\"=\"po").data ++ replaceLat r t := rfl

lemma replng_r7 (r t : List Char) :
    replaceLng r ((");\n        way[\"amenity\"=\"po").data ++ t) = (");\n        way[\"amenity\"=\"po").data ++ replaceLng r t := rfl

lemma replat_r8 (r t : List Char) :
    replaceLat r (("lice\"](around:1000,").data ++ t) = ("lice\"](around:1000,").data ++ replaceLat r t := rfl

lemma replng_r8 (r t : List Char) :
    replaceLng r (("lice\"](around:1000,").data ++ t) = ("lice\"](around:1000,").data ++ replaceLng r t := rfl

lemma replat_r9 (r t : List Char) :
    replaceLat r ((");\n        node[\"name\"~\"^(po").data ++ t) = (");\n        node[\"name\"~\"^(po").data ++ replaceLat r t := rfl

lemma replng_r9 (r t : List Char) :
    replaceLng r ((");\n        node[\"name\"~\"^(po").data ++ t) = (");\n        node[\"name\"~\"^(po").data ++ replaceLng r t := rfl

lemma replat_r10 (r t : List Char) :
    replaceLat r (("lisi|polres|polsek|polda|sat").data ++ t) = ("lisi|polres|polsek|polda|sat").data ++ replaceLat r t := rfl

lemma replng_r10 (r t : List Char) :
    replaceLng r (("lisi|polres|polsek|polda|sat").data ++ t) = ("lisi|polres|polsek|polda|sat").data ++ replaceLng r t := rfl

lemma replat_r11 (r t : List Char) :
    replaceLat r (("lantas|satpol|pp|police)\"](a").data ++ t) = ("lantas|satpol|pp|police)\"](a").data ++ replaceLat r t := rfl

lemma replng_r11 (r t : List Char) :
    replaceLng r (("lantas|satpol|pp|police)\"](a").data ++ t) = ("lantas|satpol|pp|police)\"](a").data ++ replaceLng r t := rfl

lemma replat_r12 (r t : List Char) :
    replaceLat r (("round:1000,").data ++ t) = ("round:1000,").data ++ replaceLat r t := rfl

lemma replng_r12 (r t : List Char) :
    replaceLng r (("round:1000,").data ++ t) = ("round:1000,").data ++ replaceLng r t := rfl

lemma replat_r13 (r t : List Char) :
    replaceLat r ((");\n        way[\"name\"~\"^(pol").data ++ t) = (");\n        way[\"name\"~\"^(pol").data ++ replaceLat r t := rfl

lemma replng_r13 (r t : List Char) :
    replaceLng r ((");\n        way[\"name\"~\"^(pol").data ++ t) = (");\n        way[\"name\"~\"^(pol").data ++ replaceLng r t := rfl

lemma replat_r14 (r t : List Char) :
    replaceLat r (("isi|polres|polsek|polda|satl").data ++ t) = ("isi|polres|polsek|polda|satl").data ++ replaceLat r t := rfl

lemma replng_r14 (r t : List Char) :
    replaceLng r (("isi|polres|polsek|polda|satl").data ++ t) = ("isi|polres|polsek|polda|satl").data ++ replaceLng r t := rfl

lemma replat_r15 (r t : List Char) :
    replaceLat r (("antas|satpol|pp|police)\"](ar").data ++ t) = ("antas|satpol|pp|police)\"](ar").data ++ replaceLat r t := rfl

lemma replng_r15 (r t : List Char) :
    replaceLng r (("antas|satpol|pp|police)\"](ar").data ++ t) = ("antas|satpol|pp|police)\"](ar").data ++ replaceLng r t := rfl

lemma replat_r16 (r t : List Char) :
    replaceLat r ((");\n      );\n      out center").data ++ t) = (");\n      );\n      out center").data ++ replaceLat r t := rfl

lemma replng_r16 (r t : List Char) :
    replaceLng r ((");\n      );\n      out center").data ++ t) = (");\n      );\n      out center").data ++ replaceLng r t := rfl

lemma replat_r17 (r t : List Char) :
    replaceLat r ((";\n    ").data ++ t) = (";\n    ").data ++ replaceLat r t := rfl

lemma replng_r17 (r t : List Char) :
    replaceLng r ((";\n    ").data ++ t) = (";\n    ").data ++ replaceLng r t := rfl

lemma replng_v0_0001 (r t : List Char) :
    replaceLng r (("0.0001").data ++ t) = ("0.0001").data ++ replaceLng r t := rfl

lemma replng_v0_0002 (r t : List Char) :
    replaceLng r (("0.0002").data ++ t) = ("0.0002").data ++ replaceLng r t := rfl

set_option maxRecDepth 4000 in
lemma fmtA :
    replaceLng ("0").data (replaceLat ("0.0001").data polTplChars) = fqAChars := by
  show replaceLng ("0").data (replaceLat ("0.0001").data polTplChars) = fqAChars
  unfold polTplChars
  rw [replat_r1, replat_r2, replat_r3, replat_r4, replat_r5, replaceLat_latPh, replat_r6, replaceLat_lngPh, replat_r7, replat_r8, replaceLat_latPh, replat_r6, replaceLat_lngPh, replat_r9, replat_r10, replat_r11, replat_r12, replaceLat_latPh, replat_r6, replaceLat_lngPh, replat_r13, replat_r14, replat_r15, replat_r5, replaceLat_latPh, replat_r6, replaceLat_lngPh, replat_r16, replat_r17, replaceLat_nil]
  rw [replng_r1, replng_r2, replng_r3, replng_r4, replng_r5, replng_v0_0001, replng_r6, replaceLng_lngPh, replng_r7, replng_r8, replng_v0_0001, replng_r6, replaceLng_lngPh, replng_r9, replng_r10, replng_r11, replng_r12, replng_v0_0001, replng_r6, replaceLng_lngPh, replng_r13, replng_r14, replng_r15, replng_r5, replng_v0_0001, replng_r6, replaceLng_lngPh, replng_r16, replng_r17, replaceLng_nil]
  rfl

set_option maxRecDepth 4000 in
lemma hashA : jsHash fqAChars = -1913185733 := by
  unfold jsHash fqAChars
  rw [List.foldl_append]
  rw [(by decide : List.foldl jsHashStep (0 : Int) ("\n      [out:json];\n      (\n ").data = (1544549079 : Int))]
  rw [List.foldl_append]
  rw [(by decide : List.foldl jsHashStep (1544549079 : Int) ("       // Police stations an").data = (1054556867 : Int))]
  rw [List.foldl_append]
  rw [(by decide : List.foldl jsHashStep (1054556867 : Int) ("d related facilities\n       ").data = (232631787 : Int))]
  rw [List.foldl_append]
  rw [(by decide : List.foldl jsHashStep (232631787 : Int) (" node[\"amenity\"=\"police\"](ar").data = (-1975462572 : Int))]
  rw [List.foldl_append]
  rw [(by decide : List.foldl jsHashStep (-1975462572 : Int) ("ound:1000,").data = (1066832163 : Int))]
  rw [List.foldl_append]
  rw [(by decide : List.foldl jsHashStep (1066832163 : Int) ("0.0001").data = (-1364767262 : Int))]
  rw [List.foldl_append]
  rw [(by decide : List.foldl jsHashStep (-1364767262 : Int) (",").data = (641887882 : Int))]
  rw [List.foldl_append]
  rw [(by decide : List.foldl jsHashStep (641887882 : Int) ("0").data = (-1576312090 : Int))]
  rw [List.foldl_append]
  rw [(by decide : List.foldl jsHashStep (-1576312090 : Int) (");\n        way[\"amenity\"=\"po").data = (501027185 : Int))]
  rw [List.foldl_append]
  rw [(by decide : List.foldl jsHashStep (501027185 : Int) ("lice\"](around:1000,").data = (1066091965 : Int))]
  rw [List.foldl_append]
  rw [(by decide : List.foldl jsHashStep (1066091965 : Int) ("0.0001").data = (-1681611012 : Int))]
  rw [List.foldl_append]
  rw [(by decide : List.foldl jsHashStep (-1681611012 : Int) (",").data = (-590333776 : Int))]
  rw [List.foldl_append]
  rw [(by decide : List.foldl jsHashStep (-590333776 : Int) ("0").data = (-1120477824 : Int))]
  rw [List.foldl_append]
  rw [(by decide : List.foldl jsHashStep (-1120477824 : Int) (");\n        node[\"name\"~\"^(po").data = (-664051389 : Int))]
  rw [List.foldl_append]
  rw [(by decide : List.foldl jsHashStep (-664051389 : Int) ("lisi|polres|polsek|polda|sat").data = (31718247 : Int))]
  rw [List.foldl_append]
  rw [(by decide : List.foldl jsHashStep (31718247 : Int) ("lantas|satpol|pp|police)\"](a").data = (-1775793200 : Int))]
  rw [List.foldl_append]
  rw [(by decide : List.foldl jsHashStep (-1775793200 : Int) ("round:1000,").data = (1073930481 : Int))]
  rw [List.foldl_append]
  rw [(by decide : List.foldl jsHashStep (1073930481 : Int) ("0.0001").data = (1268779824 : Int))]
  rw [List.foldl_append]
  rw [(by decide : List.foldl jsHashStep (1268779824 : Int) (",").data = (677468924 : Int))]
  rw [List.foldl_append]
  rw [(by decide : List.foldl jsHashStep (677468924 : Int) ("0").data = (-473299788 : Int))]
  rw [List.foldl_append]
  rw [(by decide : List.foldl jsHashStep (-473299788 : Int) (");\n        way[\"name\"~\"^(pol").data = (2032473274 : Int))]
  rw [List.foldl_append]
  rw [(by decide : List.foldl jsHashStep (2032473274 : Int) ("isi|polres|polsek|polda|satl").data = (-1866138730 : Int))]
  rw [List.foldl_append]
  rw [(by decide : List.foldl jsHashStep (-1866138730 : Int) ("antas|satpol|pp|police)\"](ar").data = (1861809363 : Int))]
  rw [List.foldl_append]
  rw [(by decide : List.foldl jsHashStep (1861809363 : Int) ("ound:1000,").data = (761830882 : Int))]
  rw [List.foldl_append]
  rw [(by decide : List.foldl jsHashStep (761830882 : Int) ("0.0001").data = (-1182363807 : Int))]
  rw [List.foldl_append]
  rw [(by decide : List.foldl jsHashStep (-1182363807 : Int) (",").data = (2001427691 : Int))]
  rw [List.foldl_append]
  rw [(by decide : List.foldl jsHashStep (2001427691 : Int) ("0").data = (1914716325 : Int))]
  rw [List.foldl_append]
  rw [(by decide : List.foldl jsHashStep (1914716325 : Int) (");\n      );\n      out center").data = (-1751182452 : Int))]
  rw [List.foldl_append]
  rw [(by decide : List.foldl jsHashStep (-1751182452 : Int) (";\n    ").data = (-1913185733 : Int))]
  rfl

set_option maxRecDepth 4000 in
lemma fmtB :
    replaceLng ("0").data (replaceLat ("0.0002").data polTplChars) = fqBChars := by
  show replaceLng ("0").data (replaceLat ("0.0002").data polTplChars) = fqBChars
  unfold polTplChars
  rw [replat_r1, replat_r2, replat_r3, replat_r4, replat_r5, replaceLat_latPh, replat_r6, replaceLat_lngPh, replat_r7, replat_r8, replaceLat_latPh, replat_r6, replaceLat_lngPh, replat_r9, replat_r10, replat_r11, replat_r12, replaceLat_latPh, replat_r6, replaceLat_lngPh, replat_r13, replat_r14, replat_r15, replat_r5, replaceLat_latPh, replat_r6, replaceLat_lngPh, replat_r16, replat_r17, replaceLat_nil]
  rw [replng_r1, replng_r2, replng_r3, replng_r4, replng_r5, replng_v0_0002, replng_r6, replaceLng_lngPh, replng_r7, replng_r8, replng_v0_0002, replng_r6, replaceLng_lngPh, replng_r9, replng_r10, replng_r11, replng_r12, replng_v0_0002, replng_r6, replaceLng_lngPh, replng_r13, replng_r14, replng_r15, replng_r5, replng_v0_0002, replng_r6, replaceLng_lngPh, replng_r16, replng_r17, replaceLng_nil]
  rfl

set_option maxRecDepth 4000 in
lemma hashB : jsHash fqBChars = 352115101 := by
  unfold jsHash fqBChars
  rw [List.foldl_append]
  rw [(by decide : List.foldl jsHashStep (0 : Int) ("\n      [out:json];\n      (\n ").data = (1544549079 : Int))]
  rw [List.foldl_append]
  rw [(by decide : List.foldl jsHashStep (1544549079 : Int) ("       // Police stations an").data = (1054556867 : Int))]
  rw [List.foldl_append]
  rw [(by decide : List.foldl jsHashStep (1054556867 : Int) ("d related facilities\n       ").data = (232631787 : Int))]
  rw [List.foldl_append]
  rw [(by decide : List.foldl jsHashStep (232631787 : Int) (" node[\"amenity\"=\"police\"](ar").data = (-1975462572 : Int))]
  rw [List.foldl_append]
  rw [(by decide : List.foldl jsHashStep (-1975462572 : Int) ("ound:1000,").data = (1066832163 : Int))]
  rw [List.foldl_append]
  rw [(by decide : List.foldl jsHashStep (1066832163 : Int) ("0.0002").data = (-1364767261 : Int))]
  rw [List.foldl_append]
  rw [(by decide : List.foldl jsHashStep (-1364767261 : Int) (",").data = (641887913 : Int))]
  rw [List.foldl_append]
  rw [(by decide : List.foldl jsHashStep (641887913 : Int) ("0").data = (-1576311129 : Int))]
  rw [List.foldl_append]
  rw [(by decide : List.foldl jsHashStep (-1576311129 : Int) (");\n        way[\"amenity\"=\"po").data = (851827122 : Int))]
  rw [List.foldl_append]
  rw [(by decide : List.foldl jsHashStep (851827122 : Int) ("lice\"](around:1000,").data = (825551836 : Int))]
  rw [List.foldl_append]
  rw [(by decide : List.foldl jsHashStep (825551836 : Int) ("0.0002").data = (-1661273636 : Int))]
  rw [List.foldl_append]
  rw [(by decide : List.foldl jsHashStep (-1661273636 : Int) (",").data = (40124880 : Int))]
  rw [List.foldl_append]
  rw [(by decide : List.foldl jsHashStep (40124880 : Int) ("0").data = (1243871328 : Int))]
  rw [List.foldl_append]
  rw [(by decide : List.foldl jsHashStep (1243871328 : Int) (");\n        node[\"name\"~\"^(po").data = (854944803 : Int))]
  rw [List.foldl_append]
  rw [(by decide : List.foldl jsHashStep (854944803 : Int) ("lisi|polres|polsek|polda|sat").data = (-834472377 : Int))]
  rw [List.foldl_append]
  rw [(by decide : List.foldl jsHashStep (-834472377 : Int) ("lantas|satpol|pp|police)\"](a").data = (1955821232 : Int))]
  rw [List.foldl_append]
  rw [(by decide : List.foldl jsHashStep (1955821232 : Int) ("round:1000,").data = (-581866991 : Int))]
  rw [List.foldl_append]
  rw [(by decide : List.foldl jsHashStep (-581866991 : Int) ("0.0002").data = (149634129 : Int))]
  rw [List.foldl_append]
  rw [(by decide : List.foldl jsHashStep (149634129 : Int) (",").data = (343690747 : Int))]
  rw [List.foldl_append]
  rw [(by decide : List.foldl jsHashStep (343690747 : Int) ("0").data = (2064478613 : Int))]
  rw [List.foldl_append]
  rw [(by decide : List.foldl jsHashStep (2064478613 : Int) (");\n        way[\"name\"~\"^(pol").data = (1636193819 : Int))]
  rw [List.foldl_append]
  rw [(by decide : List.foldl jsHashStep (1636193819 : Int) ("isi|polres|polsek|polda|satl").data = (-34582153 : Int))]
  rw [List.foldl_append]
  rw [(by decide : List.foldl jsHashStep (-34582153 : Int) ("antas|satpol|pp|police)\"](ar").data = (-1816486092 : Int))]
  rw [List.foldl_append]
  rw [(by decide : List.foldl jsHashStep (-1816486092 : Int) ("ound:1000,").data = (1581613827 : Int))]
  rw [List.foldl_append]
  rw [(by decide : List.foldl jsHashStep (1581613827 : Int) ("0.0002").data = (-1710139453 : Int))]
  rw [List.foldl_append]
  rw [(by decide : List.foldl jsHashStep (-1710139453 : Int) (",").data = (-1474715447 : Int))]
  rw [List.foldl_append]
  rw [(by decide : List.foldl jsHashStep (-1474715447 : Int) ("0").data = (1528461447 : Int))]
  rw [List.foldl_append]
  rw [(by decide : List.foldl jsHashStep (1528461447 : Int) (");\n      );\n      out center").data = (1211663470 : Int))]
  rw [List.foldl_append]
  rw [(by decide : List.foldl jsHashStep (1211663470 : Int) (";\n    ").data = (352115101 : Int))]
  rfl


/-! ### Claims -/

/-- Claim C1: for every category of the ten-category enum (whose config has
maxDistance 1000), the distance contribution is 0 beyond maxDistance; on
[0, maxDistance] it equals
max(maxContribution * (1 - d/maxDistance)^decayRate, 0.1 * maxContribution)
and is at least 0.1 * maxContribution; and it is non-increasing in the
distance. -/
theorem claim_C1_distance_contribution (c : Category) (d d1 d2 : ℝ)
    (h1 : 0 ≤ d1) (h12 : d1 ≤ d2) :
    (configFor (catKey c)).maxDistance = 1000 ∧
    (1000 < d → calculateDistanceContribution d (catKey c) = 0) ∧
    (0 ≤ d → d ≤ 1000 →
      calculateDistanceContribution d (catKey c) =
        max ((configFor (catKey c)).maxContribution *
              (1 - d / (configFor (catKey c)).maxDistance) ^ (configFor (catKey c)).decayRate)
            (0.1 * (configFor (catKey c)).maxContribution) ∧
      0.1 * (configFor (catKey c)).maxContribution ≤
        calculateDistanceContribution d (catKey c)) ∧
    calculateDistanceContribution d2 (catKey c) ≤ calculateDistanceContribution d1 (catKey c) := by
  obtain ⟨hmd, hmc, hdr⟩ := configFor_catKey c
  refine ⟨hmd, ?_, ?_, ?_⟩
  · intro h
    exact cdc_beyond d (catKey c) (by rw [hmd]; exact h)
  · intro _ hle
    have hin : ¬ d > (configFor (catKey c)).maxDistance := by rw [hmd]; exact not_lt.mpr hle
    constructor
    · rw [cdc_inside d (catKey c) hin, mul_comm ((configFor (catKey c)).maxContribution) (0.1 : ℝ)]
    · rw [cdc_inside d (catKey c) hin, mul_comm (0.1 : ℝ)]
      exact le_max_right _ _
  · exact cdc_anti (catKey c) (by rw [hmd]; norm_num) hmc hdr h1 h12

/-- Witness for C1 at category health with d = 2000, d1 = 0, d2 = 1000. -/
theorem claim_C1_witness :
    (configFor (catKey Category.health)).maxDistance = 1000 ∧
    (1000 < (2000:ℝ) → calculateDistanceContribution 2000 (catKey Category.health) = 0) ∧
    ((0:ℝ) ≤ 2000 → (2000:ℝ) ≤ 1000 →
      calculateDistanceContribution 2000 (catKey Category.health) =
        max ((configFor (catKey Category.health)).maxContribution *
              (1 - 2000 / (configFor (catKey Category.health)).maxDistance) ^
                (configFor (catKey Category.health)).decayRate)
            (0.1 * (configFor (catKey Category.health)).maxContribution) ∧
      0.1 * (configFor (catKey Category.health)).maxContribution ≤
        calculateDistanceContribution 2000 (catKey Category.health)) ∧
    calculateDistanceContribution 1000 (catKey Category.health) ≤
      calculateDistanceContribution 0 (catKey Category.health) :=
  claim_C1_distance_contribution Category.health 2000 0 1000 le_rfl (by norm_num)

/-- Claim C2: the classifier is an ordered priority list with education
first and police second: any element satisfying both the education rule and
the police rule is classified as education, whatever query bucket found it. -/
theorem claim_C2_education_beats_police (tags : Option Tags) (queryCategory : String)
    (he : eduRule tags = true) (_hp : policeRule tags = true) :
    classifyElement tags queryCategory = "education" := by
  unfold classifyElement
  rw [if_pos he]

/-- Witness for C2: an element tagged amenity=school whose name also matches
the police indicator "police". -/
theorem claim_C2_witness :
    eduRule (some { amenity := some "school", name := some "police" }) = true ∧
    policeRule (some { amenity := some "school", name := some "police" }) = true ∧
    classifyElement (some { amenity := some "school", name := some "police" }) "safety" =
      "education" :=
  ⟨by decide, by decide,
    claim_C2_education_beats_police _ "safety" (by decide) (by decide)⟩

lemma round_cast_nonneg (x : ℝ) (h : 0 ≤ x) : (0:ℝ) ≤ ((round x : ℤ) : ℝ) := by
  have : (0:ℤ) ≤ round x := by
    rw [round_eq]
    exact Int.floor_nonneg.mpr (by linarith)
  exact_mod_cast this

lemma cap_bounds (v : ℝ) (h : 0 ≤ v) : 0 ≤ cap v ∧ cap v ≤ 100 := by
  unfold cap
  exact ⟨le_min (by norm_num) (round_cast_nonneg v h), min_le_left _ _⟩

/-- Claim C3: the sub-score formulas of `calculateSubScores` (cap at 100 of
the rounded weighted contribution sums), each sub-score in [0, 100] for
nonnegative sums, and the overall weighted score in [0, 100]. -/
theorem claim_C3_subscores (s : Category → ℝ) (counts : Category → ℕ)
    (hs : ∀ c, 0 ≤ s c) :
    (calculateSubScores s counts).services =
      min 100 ((round (s .health * 1.2 + s .education * 1.0 + s .market * 0.8 +
        s .religious * 0.8) : ℤ) : ℝ) ∧
    (calculateSubScores s counts).mobility =
      min 100 ((round (s .transport * 1.5 + s .walkability * 0.5) : ℤ) : ℝ) ∧
    (calculateSubScores s counts).safety =
      min 100 ((round (s .safety * 0.6 + s .police * 2.0 + s .health * 0.8 +
        s .accessibility * 1.0) : ℤ) : ℝ) ∧
    (calculateSubScores s counts).environment =
      min 100 ((round (s .recreation * 2.5) : ℤ) : ℝ) ∧
    (0 ≤ (calculateSubScores s counts).services ∧ (calculateSubScores s counts).services ≤ 100) ∧
    (0 ≤ (calculateSubScores s counts).mobility ∧ (calculateSubScores s counts).mobility ≤ 100) ∧
    (0 ≤ (calculateSubScores s counts).safety ∧ (calculateSubScores s counts).safety ≤ 100) ∧
    (0 ≤ (calculateSubScores s counts).environment ∧
      (calculateSubScores s counts).environment ≤ 100) ∧
    (0 ≤ (calculateSubScores s counts).services * 0.3 +
          (calculateSubScores s counts).mobility * 0.25 +
          (calculateSubScores s counts).safety * 0.25 +
          (calculateSubScores s counts).environment * 0.2 ∧
     (calculateSubScores s counts).services * 0.3 +
          (calculateSubScores s counts).mobility * 0.25 +
          (calculateSubScores s counts).safety * 0.25 +
          (calculateSubScores s counts).environment * 0.2 ≤ 100) := by
  have hserv : 0 ≤ s .health * 1.2 + s .education * 1.0 + s .market * 0.8 +
      s .religious * 0.8 := by
    have h1 := hs .health
    have h2 := hs .education
    have h3 := hs .market
    have h4 := hs .religious
    nlinarith
  have hmob : 0 ≤ s .transport * 1.5 + s .walkability * 0.5 := by
    have h1 := hs .transport
    have h2 := hs .walkability
    nlinarith
  have hsaf : 0 ≤ s .safety * 0.6 + s .police * 2.0 + s .health * 0.8 +
      s .accessibility * 1.0 := by
    have h1 := hs .safety
    have h2 := hs .police
    have h3 := hs .health
    have h4 := hs .accessibility
    nlinarith
  have henv : 0 ≤ s .recreation * 2.5 := by
    have h1 := hs .recreation
    nlinarith
  have b1 := cap_bounds _ hserv
  have b2 := cap_bounds _ hmob
  have b3 := cap_bounds _ hsaf
  have b4 := cap_bounds _ henv
  simp only [calculateSubScores]
  refine ⟨rfl, rfl, rfl, rfl, b1, b2, b3, b4, ?_, ?_⟩
  · nlinarith [b1.1, b2.1, b3.1, b4.1]
  · nlinarith [b1.2, b2.2, b3.2, b4.2, b1.1, b2.1, b3.1, b4.1]

/-- Witness for C3 at the all-zero contribution sums. -/
theorem claim_C3_witness :
    ((calculateSubScores (fun _ => 0) (fun _ => 0)).services =
      min 100 ((round ((0:ℝ) * 1.2 + (0:ℝ) * 1.0 + (0:ℝ) * 0.8 + (0:ℝ) * 0.8) : ℤ) : ℝ) ∧
    (calculateSubScores (fun _ => 0) (fun _ => 0)).mobility =
      min 100 ((round ((0:ℝ) * 1.5 + (0:ℝ) * 0.5) : ℤ) : ℝ) ∧
    (calculateSubScores (fun _ => 0) (fun _ => 0)).safety =
      min 100 ((round ((0:ℝ) * 0.6 + (0:ℝ) * 2.0 + (0:ℝ) * 0.8 + (0:ℝ) * 1.0) : ℤ) : ℝ) ∧
    (calculateSubScores (fun _ => 0) (fun _ => 0)).environment =
      min 100 ((round ((0:ℝ) * 2.5) : ℤ) : ℝ) ∧
    (0 ≤ (calculateSubScores (fun _ => 0) (fun _ => 0)).services ∧
      (calculateSubScores (fun _ => 0) (fun _ => 0)).services ≤ 100) ∧
    (0 ≤ (calculateSubScores (fun _ => 0) (fun _ => 0)).mobility ∧
      (calculateSubScores (fun _ => 0) (fun _ => 0)).mobility ≤ 100) ∧
    (0 ≤ (calculateSubScores (fun _ => 0) (fun _ => 0)).safety ∧
      (calculateSubScores (fun _ => 0) (fun _ => 0)).safety ≤ 100) ∧
    (0 ≤ (calculateSubScores (fun _ => 0) (fun _ => 0)).environment ∧
      (calculateSubScores (fun _ => 0) (fun _ => 0)).environment ≤ 100) ∧
    (0 ≤ (calculateSubScores (fun _ => 0) (fun _ => 0)).services * 0.3 +
          (calculateSubScores (fun _ => 0) (fun _ => 0)).mobility * 0.25 +
          (calculateSubScores (fun _ => 0) (fun _ => 0)).safety * 0.25 +
          (calculateSubScores (fun _ => 0) (fun _ => 0)).environment * 0.2 ∧
     (calculateSubScores (fun _ => 0) (fun _ => 0)).services * 0.3 +
          (calculateSubScores (fun _ => 0) (fun _ => 0)).mobility * 0.25 +
          (calculateSubScores (fun _ => 0) (fun _ => 0)).safety * 0.25 +
          (calculateSubScores (fun _ => 0) (fun _ => 0)).environment * 0.2 ≤ 100)) :=
  claim_C3_subscores (fun _ => 0) (fun _ => 0) (fun _ => le_rfl)

/-- Claim C5: accumulating a single walkability-classified facility with
contribution 8 adds the dampened 0.25 * 8 = 2.0 to the walkability sum; when
its tags indicate lighting (highway=street_lamp or lit=yes) the same
dampened 2.0 also spills over into the safety sum, and otherwise only the
walkability sum changes. -/
theorem claim_C5_walkability_spillover (st : (Category → ℕ) × (Category → ℝ))
    (f : Facility) (hcat : f.category = "walkability") (hcontrib : f.contribution = 8) :
    (isLighting f = true →
      (accumulateFacility st f).2 .walkability = st.2 .walkability + 2 ∧
      (accumulateFacility st f).2 .safety = st.2 .safety + 2 ∧
      (∀ c, c ≠ .walkability → c ≠ .safety → (accumulateFacility st f).2 c = st.2 c)) ∧
    (isLighting f = false →
      (accumulateFacility st f).2 .walkability = st.2 .walkability + 2 ∧
      (∀ c, c ≠ .walkability → (accumulateFacility st f).2 c = st.2 c)) := by
  have h8 : f.contribution * 0.25 = 2 := by rw [hcontrib]; norm_num
  constructor
  · intro hl
    refine ⟨?_, ?_, ?_⟩
    · simp [accumulateFacility, hcat, parseCategory, hl, addScore, h8]
    · simp [accumulateFacility, hcat, parseCategory, hl, addScore, h8]
    · intro c hc1 hc2
      simp [accumulateFacility, hcat, parseCategory, hl, addScore, hc1, hc2]
  · intro hl
    refine ⟨?_, ?_⟩
    · simp [accumulateFacility, hcat, parseCategory, hl, addScore, h8]
    · intro c hc1
      simp [accumulateFacility, hcat, parseCategory, hl, addScore, hc1]

/-- Witness for C5: one street-lamp facility with contribution 8 processed on
zeroed accumulators. -/
theorem claim_C5_witness :
    (isLighting ⟨"walkability-1", "street_lamp", "walkability", 0, 0, 0, 8,
        some { highway := some "street_lamp" }⟩ = true →
      (accumulateFacility ((fun _ => 0), (fun _ => 0))
          ⟨"walkability-1", "street_lamp", "walkability", 0, 0, 0, 8,
            some { highway := some "street_lamp" }⟩).2 .walkability =
        (fun (_ : Category) => (0:ℝ)) .walkability + 2 ∧
      (accumulateFacility ((fun _ => 0), (fun _ => 0))
          ⟨"walkability-1", "street_lamp", "walkability", 0, 0, 0, 8,
            some { highway := some "street_lamp" }⟩).2 .safety =
        (fun (_ : Category) => (0:ℝ)) .safety + 2 ∧
      (∀ c, c ≠ .walkability → c ≠ .safety →
        (accumulateFacility ((fun _ => 0), (fun _ => 0))
            ⟨"walkability-1", "street_lamp", "walkability", 0, 0, 0, 8,
              some { highway := some "street_lamp" }⟩).2 c =
          (fun (_ : Category) => (0:ℝ)) c)) ∧
    (isLighting ⟨"walkability-1", "street_lamp", "walkability", 0, 0, 0, 8,
        some { highway := some "street_lamp" }⟩ = false →
      (accumulateFacility ((fun _ => 0), (fun _ => 0))
          ⟨"walkability-1", "street_lamp", "walkability", 0, 0, 0, 8,
            some { highway := some "street_lamp" }⟩).2 .walkability =
        (fun (_ : Category) => (0:ℝ)) .walkability + 2 ∧
      (∀ c, c ≠ .walkability →
        (accumulateFacility ((fun _ => 0), (fun _ => 0))
            ⟨"walkability-1", "street_lamp", "walkability", 0, 0, 0, 8,
              some { highway := some "street_lamp" }⟩).2 c =
          (fun (_ : Category) => (0:ℝ)) c)) :=
  claim_C5_walkability_spillover ((fun _ => 0), (fun _ => 0)) _ rfl rfl

/-- Claim C9 (evaluation of the code at the failing input): the police-query
cache keys of two requests whose coordinates agree after rounding to 3
decimals (latitudes 0.0001 and 0.0002, longitude 0) are different, because
the key embeds the hash of the formatted query, which contains the
full-precision coordinates.  This contradicts the documented intent that
nearby locations share a cache entry. -/
theorem claim_C9_rounded_coords_different_keys :
    (JsNum.mk "0.0001" "0.000").fixed3 = (JsNum.mk "0.0002" "0.000").fixed3 ∧
    overpassCacheKey overpassQueryPolice (JsNum.mk "0.0001" "0.000") (JsNum.mk "0" "0.000") ≠
      overpassCacheKey overpassQueryPolice (JsNum.mk "0.0002" "0.000") (JsNum.mk "0" "0.000") := by
  refine ⟨rfl, ?_⟩
  have hA : (formatOverpassQuery overpassQueryPolice "0.0001" "0").data = fqAChars := fmtA
  have hB : (formatOverpassQuery overpassQueryPolice "0.0002" "0").data = fqBChars := fmtB
  have e1 : overpassCacheKey overpassQueryPolice (JsNum.mk "0.0001" "0.000") (JsNum.mk "0" "0.000") =
      cacheLocationDataKey ("overpass-" ++ toString ((-1913185733 : Int))) "0.000" "0.000" := by
    simp only [overpassCacheKey]
    rw [hA, hashA]
  have e2 : overpassCacheKey overpassQueryPolice (JsNum.mk "0.0002" "0.000") (JsNum.mk "0" "0.000") =
      cacheLocationDataKey ("overpass-" ++ toString ((352115101 : Int))) "0.000" "0.000" := by
    simp only [overpassCacheKey]
    rw [hB, hashB]
  rw [e1, e2]
  decide

lemma parseCategory_some_catKey {s : String} {c : Category} (h : parseCategory s = some c) :
    s = catKey c := by
  unfold parseCategory at h
  split_ifs at h <;>
    simp only [Option.some.injEq] at h <;>
    (try subst h) <;>
    simp_all [catKey]

lemma configFor_of_unparsed (s : String) (h : parseCategory s = none) :
    configFor s = ⟨1000, 10, 0.8⟩ := by
  unfold parseCategory at h
  unfold configFor
  split_ifs at h <;> simp_all

lemma cdc_config_eq {s s' : String} (h : configFor s = configFor s') (d : ℝ) :
    calculateDistanceContribution d s = calculateDistanceContribution d s' := by
  unfold calculateDistanceContribution
  rw [h]

/-- Claim C10: merging a custom POI whose category string is not one of the
ten enum categories (and not the legacy "custom") leaves every facility
count, every contribution sum, every sub-score and the overall score
unchanged, while the synthetic facility — whose contribution comes from the
health fallback decay config — is still appended to the returned facilities
list. -/
theorem claim_C10_unknown_custom_category (env : FetchEnv) (pois : List CustomPOI)
    (lat lng : ℝ) (addr : String) (p : CustomPOI)
    (hc : parseCategory p.category = none) (hnc : p.category ≠ "custom")
    (hdist : calculateDistance lat lng p.lat p.lng ≤ 1000) :
    totalsOf env (pois ++ [p]) lat lng = totalsOf env pois lat lng ∧
    (calculateLivabilityScore env (pois ++ [p]) lat lng addr).facilityCounts =
      (calculateLivabilityScore env pois lat lng addr).facilityCounts ∧
    (calculateLivabilityScore env (pois ++ [p]) lat lng addr).subscores =
      (calculateLivabilityScore env pois lat lng addr).subscores ∧
    (calculateLivabilityScore env (pois ++ [p]) lat lng addr).overall =
      (calculateLivabilityScore env pois lat lng addr).overall ∧
    (calculateLivabilityScore env (pois ++ [p]) lat lng addr).facilities =
      (calculateLivabilityScore env pois lat lng addr).facilities ++
        [customFacility lat lng p] ∧
    (customFacility lat lng p).contribution =
      calculateDistanceContribution (calculateDistance lat lng p.lat p.lng) "health" := by
  have hnear : getPOIsNearLocation (pois ++ [p]) lat lng 1000 =
      getPOIsNearLocation pois lat lng 1000 ++ [p] := by
    unfold getPOIsNearLocation
    rw [List.filter_append]
    congr 1
    simp [decide_eq_true_iff.mpr hdist]
  have hcustom : customFacilitiesOf (pois ++ [p]) lat lng =
      customFacilitiesOf pois lat lng ++ [customFacility lat lng p] := by
    unfold customFacilitiesOf
    rw [hnear, List.map_append, List.map_singleton]
  have hcatp : (customFacility lat lng p).category = p.category := by
    simp [customFacility, hnc]
  have htot : totalsOf env (pois ++ [p]) lat lng = totalsOf env pois lat lng := by
    unfold totalsOf
    rw [hcustom, List.foldl_append, List.foldl_cons, List.foldl_nil]
    unfold accumulateCustom
    rw [hcatp, hc]
  refine ⟨htot, ?_, ?_, ?_, ?_, ?_⟩
  · simp only [calculateLivabilityScore, htot]
  · simp only [calculateLivabilityScore, htot]
  · simp only [calculateLivabilityScore, htot]
  · simp only [calculateLivabilityScore, hcustom, List.append_assoc]
  · exact cdc_config_eq (by rw [configFor_of_unparsed p.category hc, configFor_health]) _

/-- Witness for C10: a POI with the unknown category string "zzz" at the
query origin, with an otherwise empty environment. -/
theorem claim_C10_witness :
    totalsOf (fun _ => [some []]) ([] ++ [CustomPOI.mk "c1" "P" "zzz" 0 0]) 0 0 =
      totalsOf (fun _ => [some []]) [] 0 0 ∧
    (calculateLivabilityScore (fun _ => [some []]) ([] ++ [CustomPOI.mk "c1" "P" "zzz" 0 0])
        0 0 "a").facilityCounts =
      (calculateLivabilityScore (fun _ => [some []]) [] 0 0 "a").facilityCounts ∧
    (calculateLivabilityScore (fun _ => [some []]) ([] ++ [CustomPOI.mk "c1" "P" "zzz" 0 0])
        0 0 "a").subscores =
      (calculateLivabilityScore (fun _ => [some []]) [] 0 0 "a").subscores ∧
    (calculateLivabilityScore (fun _ => [some []]) ([] ++ [CustomPOI.mk "c1" "P" "zzz" 0 0])
        0 0 "a").overall =
      (calculateLivabilityScore (fun _ => [some []]) [] 0 0 "a").overall ∧
    (calculateLivabilityScore (fun _ => [some []]) ([] ++ [CustomPOI.mk "c1" "P" "zzz" 0 0])
        0 0 "a").facilities =
      (calculateLivabilityScore (fun _ => [some []]) [] 0 0 "a").facilities ++
        [customFacility 0 0 (CustomPOI.mk "c1" "P" "zzz" 0 0)] ∧
    (customFacility 0 0 (CustomPOI.mk "c1" "P" "zzz" 0 0)).contribution =
      calculateDistanceContribution
        (calculateDistance 0 0 (CustomPOI.mk "c1" "P" "zzz" 0 0).lat
          (CustomPOI.mk "c1" "P" "zzz" 0 0).lng) "health" :=
  claim_C10_unknown_custom_category (fun _ => [some []]) [] 0 0 "a"
    (CustomPOI.mk "c1" "P" "zzz" 0 0) (by decide) (by decide)
    (by rw [calculateDistance_self]; norm_num)

lemma processFacilities_nil (c : String) (u v : ℝ) : processFacilities [] c u v = [] := by
  simp [processFacilities, dedupeFacilities, dedupeById]

lemma fetchCategory_empty_env (lat lng : ℝ) (c : String) :
    fetchCategoryWithRetry (fun _ => [some []]) lat lng c = [] := by
  simp [fetchCategoryWithRetry, List.findSome?, processFacilities_nil]

lemma apiFacilities_empty (lat lng : ℝ) :
    apiFacilities (fun _ => [some []]) lat lng = [] := by
  simp [apiFacilities, categoriesOrder, fetchCategory_empty_env]

lemma cdc_at_zero (s : String) (hmd : (configFor s).maxDistance = 1000)
    (hmc : 0 ≤ (configFor s).maxContribution) :
    calculateDistanceContribution 0 s = (configFor s).maxContribution := by
  have h1 : (1 : ℝ) - 0 / (configFor s).maxDistance = 1 := by rw [hmd]; norm_num
  rw [cdc_inside 0 s (by rw [hmd]; norm_num), h1, Real.one_rpow, mul_one]
  exact max_eq_left (by nlinarith)

/-- Claim C8 counterexample: a custom walkability POI at the query origin
(contribution 12) adds its full contribution to the walkability sum, not
the dampened 0.25 * 12 = 3 that the claim asserts. -/
theorem claim_C8_counterexample :
    (totalsOf (fun _ => [some []]) [CustomPOI.mk "p1" "W" "walkability" 0 0] 0 0).2
        .walkability = 12 ∧
    (totalsOf (fun _ => [some []]) [CustomPOI.mk "p1" "W" "walkability" 0 0] 0 0).2
        .walkability ≠
      0.25 * calculateDistanceContribution
        (calculateDistance 0 0 (CustomPOI.mk "p1" "W" "walkability" 0 0).lat
          (CustomPOI.mk "p1" "W" "walkability" 0 0).lng)
        "walkability" := by
  have hd : calculateDistance 0 0 (CustomPOI.mk "p1" "W" "walkability" 0 0).lat
      (CustomPOI.mk "p1" "W" "walkability" 0 0).lng = 0 := calculateDistance_self 0 0
  have hc12 : calculateDistanceContribution 0 "walkability" = 12 := by
    rw [cdc_at_zero "walkability" rfl (by norm_num [configFor_walkability])]
    rfl
  have hsum : (totalsOf (fun _ => [some []]) [CustomPOI.mk "p1" "W" "walkability" 0 0] 0 0).2
      .walkability = 12 := by
    unfold totalsOf apiTotals
    rw [apiFacilities_empty]
    have hnear : getPOIsNearLocation [CustomPOI.mk "p1" "W" "walkability" 0 0] 0 0 1000 =
        [CustomPOI.mk "p1" "W" "walkability" 0 0] := by
      unfold getPOIsNearLocation
      simp [decide_eq_true_iff.mpr (by rw [hd]; norm_num : calculateDistance 0 0
        (CustomPOI.mk "p1" "W" "walkability" 0 0).lat
        (CustomPOI.mk "p1" "W" "walkability" 0 0).lng ≤ (1000:ℝ))]
    unfold customFacilitiesOf
    rw [hnear, List.map_singleton, List.foldl_nil, List.foldl_cons, List.foldl_nil]
    unfold accumulateCustom customFacility
    simp only [hd, hc12]
    simp [show parseCategory "walkability" = some Category.walkability from rfl, addScore]
  exact ⟨hsum, by rw [hsum, hd, hc12]; norm_num⟩

/-- Claim C8 amended: custom POIs within 1000 m are converted into synthetic
facilities with the same distance-contribution function and folded into the
same count and contribution-sum accumulators, with the legacy category
"custom" mapping to recreation — but the contribution is accumulated at
full value, with no category-specific dampening (unlike API-sourced
facilities). -/
theorem claim_C8_custom_poi_merge (env : FetchEnv) (pois : List CustomPOI)
    (lat lng : ℝ) (addr : String) (p : CustomPOI)
    (hdist : calculateDistance lat lng p.lat p.lng ≤ 1000) (c : Category)
    (hc : parseCategory (if p.category = "custom" then "recreation" else p.category) =
      some c) :
    (totalsOf env (pois ++ [p]) lat lng).1 c = (totalsOf env pois lat lng).1 c + 1 ∧
    (totalsOf env (pois ++ [p]) lat lng).2 c =
      (totalsOf env pois lat lng).2 c +
        calculateDistanceContribution (calculateDistance lat lng p.lat p.lng) p.category ∧
    (∀ c', c' ≠ c →
      (totalsOf env (pois ++ [p]) lat lng).1 c' = (totalsOf env pois lat lng).1 c' ∧
      (totalsOf env (pois ++ [p]) lat lng).2 c' = (totalsOf env pois lat lng).2 c') ∧
    (calculateLivabilityScore env (pois ++ [p]) lat lng addr).facilities =
      (calculateLivabilityScore env pois lat lng addr).facilities ++
        [customFacility lat lng p] := by
  have hnear : getPOIsNearLocation (pois ++ [p]) lat lng 1000 =
      getPOIsNearLocation pois lat lng 1000 ++ [p] := by
    unfold getPOIsNearLocation
    rw [List.filter_append]
    congr 1
    simp [decide_eq_true_iff.mpr hdist]
  have hcustom : customFacilitiesOf (pois ++ [p]) lat lng =
      customFacilitiesOf pois lat lng ++ [customFacility lat lng p] := by
    unfold customFacilitiesOf
    rw [hnear, List.map_append, List.map_singleton]
  have htot : totalsOf env (pois ++ [p]) lat lng =
      (bumpCount (totalsOf env pois lat lng).1 c,
       addScore (totalsOf env pois lat lng).2 c
         (calculateDistanceContribution (calculateDistance lat lng p.lat p.lng) p.category)) := by
    unfold totalsOf
    rw [hcustom, List.foldl_append, List.foldl_cons, List.foldl_nil]
    unfold accumulateCustom
    have hcat : (customFacility lat lng p).category =
        (if p.category = "custom" then "recreation" else p.category) := rfl
    rw [hcat, hc]
    rfl
  refine ⟨?_, ?_, ?_, ?_⟩
  · rw [htot]
    simp [bumpCount]
  · rw [htot]
    simp [addScore]
  · intro c' hne
    rw [htot]
    simp [bumpCount, addScore, hne]
  · simp only [calculateLivabilityScore, hcustom, List.append_assoc]

/-- Witness for the amended C8: a legacy "custom" POI at the origin maps to
recreation and adds its full contribution to the recreation sum. -/
theorem claim_C8_witness :
    (totalsOf (fun _ => [some []]) ([] ++ [CustomPOI.mk "p2" "Q" "custom" 0 0]) 0 0).1
        Category.recreation =
      (totalsOf (fun _ => [some []]) [] 0 0).1 Category.recreation + 1 ∧
    (totalsOf (fun _ => [some []]) ([] ++ [CustomPOI.mk "p2" "Q" "custom" 0 0]) 0 0).2
        Category.recreation =
      (totalsOf (fun _ => [some []]) [] 0 0).2 Category.recreation +
        calculateDistanceContribution
          (calculateDistance 0 0 (CustomPOI.mk "p2" "Q" "custom" 0 0).lat
            (CustomPOI.mk "p2" "Q" "custom" 0 0).lng)
          (CustomPOI.mk "p2" "Q" "custom" 0 0).category ∧
    (∀ c', c' ≠ Category.recreation →
      (totalsOf (fun _ => [some []]) ([] ++ [CustomPOI.mk "p2" "Q" "custom" 0 0]) 0 0).1 c' =
        (totalsOf (fun _ => [some []]) [] 0 0).1 c' ∧
      (totalsOf (fun _ => [some []]) ([] ++ [CustomPOI.mk "p2" "Q" "custom" 0 0]) 0 0).2 c' =
        (totalsOf (fun _ => [some []]) [] 0 0).2 c') ∧
    (calculateLivabilityScore (fun _ => [some []]) ([] ++ [CustomPOI.mk "p2" "Q" "custom" 0 0])
        0 0 "a").facilities =
      (calculateLivabilityScore (fun _ => [some []]) [] 0 0 "a").facilities ++
        [customFacility 0 0 (CustomPOI.mk "p2" "Q" "custom" 0 0)] :=
  claim_C8_custom_poi_merge (fun _ => [some []]) [] 0 0 "a"
    (CustomPOI.mk "p2" "Q" "custom" 0 0)
    (by rw [calculateDistance_self]; norm_num) Category.recreation (by decide)

lemma cdc_zero_health : calculateDistanceContribution 0 "health" = 10 := by
  rw [cdc_at_zero "health" rfl (by norm_num [configFor_health])]
  rfl

lemma build_hospital_at_origin :
    buildFacility "safety" 0 0 0 hospitalElement = hospitalFacility := by
  unfold buildFacility hospitalElement hospitalFacility
  have hlat : elementLat { id := some 7, tags := some hospitalTags } = 0 := rfl
  have hlng : elementLng { id := some 7, tags := some hospitalTags } = 0 := rfl
  have hclass : classifyElement (some hospitalTags) "safety" = "health" := by decide
  have hname : facilityName (some hospitalTags) "health" = "hospital" := by decide
  simp only [hlat, hlng, calculateDistance_self, hclass, hname, cdc_zero_health]
  norm_num [elementIdStr]
  decide

lemma process_hospital_at_origin :
    processFacilities [hospitalElement] "safety" 0 0 = [hospitalFacility] := by
  unfold processFacilities
  rw [show List.mapIdx (fun index e => buildFacility "safety" 0 0 index e) [hospitalElement] =
      [hospitalFacility] by
    simp [List.mapIdx_cons, List.mapIdx_nil, build_hospital_at_origin]]
  rw [show List.filter
      (fun f => decide (f.distance ≤ filterMaxDistance f.category)) [hospitalFacility] =
      [hospitalFacility] by
    simp only [List.filter_cons, List.filter_nil]
    rw [if_pos]
    exact decide_eq_true_iff.mpr (by norm_num [hospitalFacility, filterMaxDistance])]
  unfold dedupeFacilities dedupeById
  simp [dedupeStep, dedupeByIdStep, List.findIdx?]

lemma apiFacilities_envC4 : apiFacilities envC4 0 0 = [hospitalFacility] := by
  unfold apiFacilities categoriesOrder
  simp only [List.flatMap_cons, List.flatMap_nil]
  rw [show fetchCategoryWithRetry envC4 0 0 "health" = [] from rfl]
  rw [show fetchCategoryWithRetry envC4 0 0 "safety" =
      processFacilities [hospitalElement] "safety" 0 0 from rfl, process_hospital_at_origin]
  rw [show fetchCategoryWithRetry envC4 0 0 "education" =
      processFacilities [] "education" 0 0 from rfl, processFacilities_nil]
  rw [show fetchCategoryWithRetry envC4 0 0 "market" =
      processFacilities [] "market" 0 0 from rfl, processFacilities_nil]
  rw [show fetchCategoryWithRetry envC4 0 0 "transport" =
      processFacilities [] "transport" 0 0 from rfl, processFacilities_nil]
  rw [show fetchCategoryWithRetry envC4 0 0 "walkability" =
      processFacilities [] "walkability" 0 0 from rfl, processFacilities_nil]
  rw [show fetchCategoryWithRetry envC4 0 0 "recreation" =
      processFacilities [] "recreation" 0 0 from rfl, processFacilities_nil]
  rw [show fetchCategoryWithRetry envC4 0 0 "accessibility" =
      processFacilities [] "accessibility" 0 0 from rfl, processFacilities_nil]
  rw [show fetchCategoryWithRetry envC4 0 0 "police" =
      processFacilities [] "police" 0 0 from rfl, processFacilities_nil]
  rw [show fetchCategoryWithRetry envC4 0 0 "religious" =
      processFacilities [] "religious" 0 0 from rfl, processFacilities_nil]
  simp

/-- Claim C4 counterexample: with every health-category attempt failing but
the safety query returning one `amenity=hospital` element (classified as
health by the priority rules), the returned result has facilityCounts.health
equal to 1, not 0 — the failing category's count is not guaranteed to be 0. -/
theorem claim_C4_counterexample :
    ((envC4 "health").take 4).findSome? id = none ∧
    (calculateLivabilityScore envC4 [] 0 0 "a").facilityCounts Category.health = 1 := by
  refine ⟨rfl, ?_⟩
  have htot : (totalsOf envC4 [] 0 0).1 Category.health = 1 := by
    unfold totalsOf customFacilitiesOf getPOIsNearLocation apiTotals
    rw [apiFacilities_envC4]
    simp only [List.filter_nil, List.map_nil, List.foldl_nil, List.foldl_cons]
    unfold accumulateFacility
    rw [show parseCategory hospitalFacility.category = some Category.health from rfl]
    simp [bumpCount]
  exact htot

lemma accumulateFacility_untouched (cat : Category)
    (st : (Category → ℕ) × (Category → ℝ)) (f : Facility)
    (h1 : f.category ≠ catKey cat)
    (h2 : cat = Category.safety → ¬(f.category = "walkability" ∧ isLighting f = true)) :
    (accumulateFacility st f).1 cat = st.1 cat ∧
    (accumulateFacility st f).2 cat = st.2 cat := by
  unfold accumulateFacility
  cases hp : parseCategory f.category with
  | none => exact ⟨rfl, rfl⟩
  | some c =>
    have hcc : f.category = catKey c := parseCategory_some_catKey hp
    have hcne : cat ≠ c := by
      intro he
      subst he
      exact h1 hcc
    refine ⟨by simp [bumpCount, hcne], ?_⟩
    by_cases hw : f.category = "walkability"
    · have hcw : cat ≠ Category.walkability := by
        intro he
        subst he
        exact h1 (by rw [hw]; rfl)
      simp only [if_pos hw]
      by_cases hl : isLighting f = true
      · have hcs : cat ≠ Category.safety := by
          intro he
          exact h2 he ⟨hw, hl⟩
        simp [hl, addScore, hcw, hcs]
      · simp [hl, addScore, hcw]
    · by_cases hs : f.category = "safety"
      · have hcs : cat ≠ Category.safety := by
          intro he
          subst he
          exact h1 (by rw [hs]; rfl)
        simp only [if_neg hw, if_pos hs]
        by_cases hms : isMajorSafety f = true
        · simp [hms, addScore, hcs]
        · simp [hms, addScore, hcs]
      · simp only [if_neg hw, if_neg hs]
        simp [addScore, hcne]

lemma accumulateCustom_untouched (cat : Category)
    (st : (Category → ℕ) × (Category → ℝ)) (f : Facility)
    (h1 : f.category ≠ catKey cat) :
    (accumulateCustom st f).1 cat = st.1 cat ∧
    (accumulateCustom st f).2 cat = st.2 cat := by
  unfold accumulateCustom
  cases hp : parseCategory f.category with
  | none => exact ⟨rfl, rfl⟩
  | some c =>
    have hcc : f.category = catKey c := parseCategory_some_catKey hp
    have hcne : cat ≠ c := by
      intro he
      subst he
      exact h1 hcc
    exact ⟨by simp [bumpCount, hcne], by simp [addScore, hcne]⟩

lemma foldl_accumulateFacility_untouched (cat : Category) (l : List Facility)
    (st : (Category → ℕ) × (Category → ℝ))
    (h : ∀ f ∈ l, f.category ≠ catKey cat ∧
      (cat = Category.safety → ¬(f.category = "walkability" ∧ isLighting f = true))) :
    (l.foldl accumulateFacility st).1 cat = st.1 cat ∧
    (l.foldl accumulateFacility st).2 cat = st.2 cat := by
  induction l generalizing st with
  | nil => exact ⟨rfl, rfl⟩
  | cons f rest ih =>
    rw [List.foldl_cons]
    have hf := h f (List.mem_cons_self f rest)
    have hstep := accumulateFacility_untouched cat st f hf.1 hf.2
    have hrest := ih (accumulateFacility st f)
      (fun g hg => h g (List.mem_cons_of_mem f hg))
    exact ⟨hrest.1.trans hstep.1, hrest.2.trans hstep.2⟩

lemma foldl_accumulateCustom_untouched (cat : Category) (l : List Facility)
    (st : (Category → ℕ) × (Category → ℝ))
    (h : ∀ f ∈ l, f.category ≠ catKey cat) :
    (l.foldl accumulateCustom st).1 cat = st.1 cat ∧
    (l.foldl accumulateCustom st).2 cat = st.2 cat := by
  induction l generalizing st with
  | nil => exact ⟨rfl, rfl⟩
  | cons f rest ih =>
    rw [List.foldl_cons]
    have hstep := accumulateCustom_untouched cat st f (h f (List.mem_cons_self f rest))
    have hrest := ih (accumulateCustom st f)
      (fun g hg => h g (List.mem_cons_of_mem f hg))
    exact ⟨hrest.1.trans hstep.1, hrest.2.trans hstep.2⟩

/-- Claim C4 amended: if every attempt (4 in total) for some category fails,
`calculateLivabilityScore` still returns a complete result: the failing
category's fetch contributes no facilities, and the whole result is exactly
the result computed with that category's elements replaced by the empty
list, so all other categories are unaffected.  The failing category's own
count and contribution sum are 0 provided no element fetched under another
category is classified into it, and no custom POI maps to it (and, for the
safety sum, no walkability facility spills lighting contributions into it) —
cross-classification can otherwise make them nonzero. -/
theorem claim_C4_failed_category_degrades (env : FetchEnv) (pois : List CustomPOI)
    (lat lng : ℝ) (addr : String) (c0 : String)
    (hfail : ((env c0).take 4).findSome? id = none) :
    fetchCategoryWithRetry env lat lng c0 = [] ∧
    calculateLivabilityScore env pois lat lng addr =
      calculateLivabilityScore (fun c => if c = c0 then [some []] else env c)
        pois lat lng addr ∧
    (∀ cat : Category, catKey cat = c0 →
      (∀ f ∈ apiFacilities env lat lng, f.category ≠ c0 ∧
        (cat = Category.safety → ¬(f.category = "walkability" ∧ isLighting f = true))) →
      (∀ f ∈ customFacilitiesOf pois lat lng, f.category ≠ c0) →
      (totalsOf env pois lat lng).1 cat = 0 ∧ (totalsOf env pois lat lng).2 cat = 0) := by
  have hempty : fetchCategoryWithRetry env lat lng c0 = [] := by
    unfold fetchCategoryWithRetry
    rw [hfail]
  have hfetch : ∀ c, fetchCategoryWithRetry env lat lng c =
      fetchCategoryWithRetry (fun c => if c = c0 then [some []] else env c) lat lng c := by
    intro c
    by_cases hc : c = c0
    · subst hc
      rw [hempty]
      unfold fetchCategoryWithRetry
      simp [List.findSome?, processFacilities_nil]
    · unfold fetchCategoryWithRetry
      simp only [if_neg hc]
  have hapi : apiFacilities env lat lng =
      apiFacilities (fun c => if c = c0 then [some []] else env c) lat lng := by
    unfold apiFacilities
    rw [funext hfetch]
  have htot : totalsOf env pois lat lng =
      totalsOf (fun c => if c = c0 then [some []] else env c) pois lat lng := by
    unfold totalsOf apiTotals
    rw [hapi]
  refine ⟨hempty, ?_, ?_⟩
  · unfold calculateLivabilityScore
    rw [htot, hapi]
  · intro cat hkey hapi0 hcust0
    have h1 := foldl_accumulateFacility_untouched cat (apiFacilities env lat lng)
      ((fun _ => 0), (fun _ => 0))
      (fun f hf => by
        obtain ⟨ha, hb⟩ := hapi0 f hf
        exact ⟨by rw [hkey]; exact ha, hb⟩)
    have h2 := foldl_accumulateCustom_untouched cat (customFacilitiesOf pois lat lng)
      (apiTotals env lat lng)
      (fun f hf => by rw [hkey]; exact hcust0 f hf)
    unfold totalsOf
    unfold apiTotals at h2 ⊢
    exact ⟨h2.1.trans h1.1, h2.2.trans h1.2⟩

/-- Witness for the amended C4: the police category fails all 4 attempts in
an otherwise empty environment. -/
theorem claim_C4_witness :
    fetchCategoryWithRetry
        (fun c => if c = "police" then [none, none, none, none] else [some []]) 0 0 "police" =
      [] ∧
    calculateLivabilityScore
        (fun c => if c = "police" then [none, none, none, none] else [some []]) [] 0 0 "a" =
      calculateLivabilityScore
        (fun c => if c = "police" then [some []]
          else (fun c => if c = "police" then [none, none, none, none] else [some []]) c)
        [] 0 0 "a" ∧
    (∀ cat : Category, catKey cat = "police" →
      (∀ f ∈ apiFacilities
          (fun c => if c = "police" then [none, none, none, none] else [some []]) 0 0,
        f.category ≠ "police" ∧
        (cat = Category.safety → ¬(f.category = "walkability" ∧ isLighting f = true))) →
      (∀ f ∈ customFacilitiesOf [] 0 0, f.category ≠ "police") →
      (totalsOf (fun c => if c = "police" then [none, none, none, none] else [some []])
          [] 0 0).1 cat = 0 ∧
      (totalsOf (fun c => if c = "police" then [none, none, none, none] else [some []])
          [] 0 0).2 cat = 0) :=
  claim_C4_failed_category_degrades
    (fun c => if c = "police" then [none, none, none, none] else [some []]) [] 0 0 "a"
    "police" rfl

lemma cdc_zero_police : calculateDistanceContribution 0 "police" = 8 := by
  rw [cdc_at_zero "police" rfl (by norm_num [configFor_police])]
  rfl

lemma cdc_zero_education : calculateDistanceContribution 0 "education" = 10 := by
  rw [cdc_at_zero "education" rfl (by norm_num [configFor_education])]
  rfl

lemma build_elemA : buildFacility "health" 0 0 0 elemA = facA := by
  unfold buildFacility elemA facA
  have hclass : classifyElement (some tagsA) "health" = "police" := by decide
  have hname : facilityName (some tagsA) "police" = "x" := by decide
  simp only [show elementLat { id := some 1, tags := some tagsA } = 0 from rfl,
    show elementLng { id := some 1, tags := some tagsA } = 0 from rfl,
    calculateDistance_self, hclass, hname, cdc_zero_police]
  norm_num [elementIdStr]
  decide

lemma build_elemB : buildFacility "health" 0 0 1 elemB = facB := by
  unfold buildFacility elemB facB
  have hclass : classifyElement (some tagsB) "health" = "police" := by decide
  have hname : facilityName (some tagsB) "police" = "y" := by decide
  simp only [show elementLat { id := some 2, tags := some tagsB } = 0 from rfl,
    show elementLng { id := some 2, tags := some tagsB } = 0 from rfl,
    calculateDistance_self, hclass, hname, cdc_zero_police]
  norm_num [elementIdStr]
  decide

lemma build_elemC : buildFacility "health" 0 0 2 elemC = facC := by
  unfold buildFacility elemC facC
  have hclass : classifyElement (some tagsC) "health" = "education" := by decide
  have hname : facilityName (some tagsC) "education" = "xy" := by decide
  simp only [show elementLat { id := some 3, tags := some tagsC } = 0 from rfl,
    show elementLng { id := some 3, tags := some tagsC } = 0 from rfl,
    calculateDistance_self, hclass, hname, cdc_zero_education]
  norm_num [elementIdStr]
  decide

lemma isDup_AB : isDuplicateB facA facB = false := by
  unfold isDuplicateB
  rw [show nameSimilarB facA.name facB.name = false from by decide, Bool.and_false]

lemma isDup_AC : isDuplicateB facA facC = true := by
  unfold isDuplicateB
  rw [show nameSimilarB facA.name facC.name = true from by decide, Bool.and_true]
  rw [show calculateDistance facA.lat facA.lng facC.lat facC.lng = 0 from
    calculateDistance_self 0 0]
  exact decide_eq_true_iff.mpr (by norm_num)

lemma isDup_CB : isDuplicateB facC facB = true := by
  unfold isDuplicateB
  rw [show nameSimilarB facC.name facB.name = true from by decide, Bool.and_true]
  rw [show calculateDistance facC.lat facC.lng facB.lat facB.lng = 0 from
    calculateDistance_self 0 0]
  exact decide_eq_true_iff.mpr (by norm_num)

lemma dedupe_ABC : dedupeFacilities [facA, facB, facC] = [facC, facB] := by
  unfold dedupeFacilities
  rw [List.foldl_cons, List.foldl_cons, List.foldl_cons, List.foldl_nil]
  rw [show dedupeStep [] facA = [facA] from by
    unfold dedupeStep
    rw [List.findIdx?_nil]
    rfl]
  rw [show dedupeStep [facA] facB = [facA, facB] from by
    unfold dedupeStep
    rw [show List.findIdx? (fun existing => isDuplicateB existing facB) [facA] = none from by
      simp [List.findIdx?, isDup_AB]]
    rfl]
  show dedupeStep [facA, facB] facC = [facC, facB]
  unfold dedupeStep
  rw [show List.findIdx? (fun existing => isDuplicateB existing facC) [facA, facB] = some 0 from by
    simp [List.findIdx?, isDup_AC]]
  show (if facC.contribution > ([facA, facB].getD 0 facC).contribution
    then [facA, facB].set 0 facC else [facA, facB]) = [facC, facB]
  rw [if_pos (by norm_num [facA, facC])]
  rfl

lemma dedupe_CB : dedupeFacilities [facC, facB] = [facC] := by
  unfold dedupeFacilities
  rw [List.foldl_cons, List.foldl_cons, List.foldl_nil]
  rw [show dedupeStep [] facC = [facC] from by
    unfold dedupeStep
    rw [List.findIdx?_nil]
    rfl]
  unfold dedupeStep
  rw [show List.findIdx? (fun existing => isDuplicateB existing facB) [facC] = some 0 from by
    simp [List.findIdx?, isDup_CB]]
  show (if facB.contribution > ([facC].getD 0 facB).contribution
    then [facC].set 0 facB else [facC]) = [facC]
  rw [if_neg (by norm_num [facB, facC])]

lemma process_ABC :
    processFacilities [elemA, elemB, elemC] "health" 0 0 = [facC, facB] := by
  unfold processFacilities
  rw [show List.mapIdx (fun index e => buildFacility "health" 0 0 index e)
      [elemA, elemB, elemC] = [facA, facB, facC] from by
    simp [List.mapIdx_cons, List.mapIdx_nil, build_elemA, build_elemB, build_elemC]]
  rw [show List.filter (fun f => decide (f.distance ≤ filterMaxDistance f.category))
      [facA, facB, facC] = [facA, facB, facC] from by
    simp only [List.filter_cons, List.filter_nil]
    rw [if_pos (decide_eq_true_iff.mpr (by norm_num [facA, filterMaxDistance])),
      if_pos (decide_eq_true_iff.mpr (by norm_num [facB, filterMaxDistance])),
      if_pos (decide_eq_true_iff.mpr (by norm_num [facC, filterMaxDistance]))]]
  show dedupeById (dedupeFacilities [facA, facB, facC]) = [facC, facB]
  rw [dedupe_ABC]
  unfold dedupeById
  rw [List.foldl_cons, List.foldl_cons, List.foldl_nil]
  rw [show dedupeByIdStep [] facC = [facC] from by
    unfold dedupeByIdStep
    rw [List.findIdx?_nil]
    rfl]
  rw [show dedupeByIdStep [facC] facB = [facC, facB] from by
    unfold dedupeByIdStep
    rw [show List.findIdx? (fun existing => existing.id == facB.id) [facC] = none from by
      simp [List.findIdx?, show (facC.id == facB.id) = false from by decide]]
    rfl]

lemma dedupe_foldl_of_no_dup (l : List Facility) :
    ∀ acc, (∀ f ∈ l, ∀ a ∈ acc, isDuplicateB a f = false) →
      List.Pairwise (fun a b => isDuplicateB a b = false) l →
      List.foldl dedupeStep acc l = acc ++ l := by
  induction l with
  | nil =>
    intro acc _ _
    simp
  | cons f rest ih =>
    intro acc hacc hpw
    rw [List.foldl_cons]
    have hstep : dedupeStep acc f = acc ++ [f] := by
      unfold dedupeStep
      rw [show List.findIdx? (fun existing => isDuplicateB existing f) acc = none from by
        rw [List.findIdx?_eq_none_iff]
        intro a ha
        simp [hacc f (List.mem_cons_self f rest) a ha]]
    rw [hstep]
    rw [ih (acc ++ [f])
      (fun g hg a ha => by
        rcases List.mem_append.mp ha with h | h
        · exact hacc g (List.mem_cons_of_mem f hg) a h
        · rw [List.mem_singleton.mp h]
          exact (List.pairwise_cons.mp hpw).1 g hg)
      (List.pairwise_cons.mp hpw).2]
    simp

/-- Claim C6 amended: the proximity+name dedup step is a single left-to-right
pass in which an incoming facility is appended when it matches no
accumulator entry and otherwise replaces the first match in place when its
contribution is strictly higher; on a list with no duplicate pairs it is the
identity (so a second run on such output changes nothing), but replacement
can leave a pair of duplicates in the output, so the step is not idempotent
in general and the final `processFacilities` list can contain two entries
that are duplicates under the rule. -/
theorem claim_C6_dedup_fixpoint_on_pairwise_distinct (l : List Facility)
    (h : List.Pairwise (fun a b => isDuplicateB a b = false) l) :
    dedupeFacilities l = l := by
  unfold dedupeFacilities
  rw [dedupe_foldl_of_no_dup l [] (by simp) h]
  simp

/-- Claim C6 counterexample: processing three origin elements named "x",
"y", "xy" (contributions 8, 8, 10), the replacement step leaves the final
`processFacilities` list `[facC, facB]` containing a duplicate pair
("xy" contains "y", distance 0), and running the dedup step again on its own
output gives `[facC]`, so dedup is not idempotent and the final list is not
duplicate-free. -/
theorem claim_C6_counterexample :
    processFacilities [elemA, elemB, elemC] "health" 0 0 = [facC, facB] ∧
    isDuplicateB facC facB = true ∧
    dedupeFacilities (dedupeFacilities [facA, facB, facC]) ≠
      dedupeFacilities [facA, facB, facC] := by
  refine ⟨process_ABC, isDup_CB, ?_⟩
  rw [dedupe_ABC, dedupe_CB]
  simp

/-- Witness for the amended C6: two origin facilities named "x" and "y" are
not duplicates, and the dedup pass returns them unchanged. -/
theorem claim_C6_witness :
    dedupeFacilities [facA, facB] = [facA, facB] :=
  claim_C6_dedup_fixpoint_on_pairwise_distinct [facA, facB]
    (by simp [List.pairwise_cons, isDup_AB])

lemma atan2_sin_cos (θ : ℝ) (h1 : 0 ≤ θ) (h2 : θ < Real.pi / 2) :
    atan2 (Real.sin θ) (Real.cos θ) = θ := by
  have hcos : 0 < Real.cos θ := by
    apply Real.cos_pos_of_mem_Ioo
    constructor
    · linarith [Real.pi_pos]
    · exact h2
  unfold atan2
  rw [if_pos hcos]
  rw [← Real.tan_eq_sin_div_cos]
  exact Real.arctan_tan (by linarith [Real.pi_pos]) h2

lemma calculateDistance_equator (lng2 : ℝ) (h0 : 0 ≤ lng2) (hsmall : lng2 ≤ 1) :
    calculateDistance 0 0 0 lng2 = 6371000 * (lng2 * Real.pi / 180) := by
  unfold calculateDistance
  have hpi := Real.pi_pos
  have hpile := Real.pi_le_four
  set θ := lng2 * Real.pi / 180 / 2 with hθ
  have hθ0 : 0 ≤ θ := by positivity
  have hθlt : θ < Real.pi / 2 := by
    rw [hθ]
    nlinarith
  have hθle : θ ≤ Real.pi := by nlinarith
  have hsin : 0 ≤ Real.sin θ := Real.sin_nonneg_of_nonneg_of_le_pi hθ0 hθle
  have hcos : 0 ≤ Real.cos θ := by
    apply Real.cos_nonneg_of_mem_Icc
    constructor
    · linarith
    · linarith
  have e1 : (0 - 0) * Real.pi / 180 = 0 := by ring
  have e2 : (lng2 - 0) * Real.pi / 180 / 2 = θ := by rw [hθ]; ring
  rw [e1]
  simp only [Real.sin_zero, Real.cos_zero, zero_div, mul_zero, zero_mul, one_mul, zero_add]
  rw [e2]
  have ha : Real.sqrt (Real.sin θ * Real.sin θ) = Real.sin θ := Real.sqrt_mul_self hsin
  have hb : (1 : ℝ) - Real.sin θ * Real.sin θ = Real.cos θ * Real.cos θ := by
    have := Real.sin_sq_add_cos_sq θ
    nlinarith
  have hc : Real.sqrt (Real.cos θ * Real.cos θ) = Real.cos θ := Real.sqrt_mul_self hcos
  rw [ha, hb, hc, atan2_sin_cos θ hθ0 hθlt]
  rw [hθ]
  ring

lemma farDistance_bounds :
    1000 < 6371000 * ((0.008995 : ℝ) * Real.pi / 180) ∧
    6371000 * ((0.008995 : ℝ) * Real.pi / 180) < 1000.5 := by
  have h1 := Real.pi_gt_d6
  have h2 := Real.pi_lt_d6
  constructor
  · nlinarith
  · nlinarith

lemma farDistance_round :
    round (6371000 * ((0.008995 : ℝ) * Real.pi / 180)) = 1000 := by
  obtain ⟨hl, hr⟩ := farDistance_bounds
  rw [round_eq]
  apply Int.floor_eq_iff.mpr
  constructor
  · push_cast
    linarith
  · push_cast
    linarith

lemma build_farHospital :
    buildFacility "health" 0 0 0 farHospitalElement = farFacility := by
  unfold buildFacility farHospitalElement farFacility
  have hlng : elementLng
      { id := some 9, lon := some 0.008995, tags := some hospitalTags } = 0.008995 := by
    norm_num [elementLng, jsNumOr]
  have hlat : elementLat
      { id := some 9, lon := some 0.008995, tags := some hospitalTags } = 0 := rfl
  have hclass : classifyElement (some hospitalTags) "health" = "health" := by decide
  have hname : facilityName (some hospitalTags) "health" = "hospital" := by decide
  have hdist : calculateDistance 0 0 0 0.008995 = 6371000 * ((0.008995 : ℝ) * Real.pi / 180) :=
    calculateDistance_equator 0.008995 (by norm_num) (by norm_num)
  have hcontrib : calculateDistanceContribution
      (6371000 * ((0.008995 : ℝ) * Real.pi / 180)) "health" = 0 := by
    apply cdc_beyond _ "health"
    rw [show (configFor "health").maxDistance = (1000:ℝ) from rfl]
    exact farDistance_bounds.1
  simp only [hlat, hlng, hdist, hclass, hname, hcontrib, farDistance_round]
  norm_num [elementIdStr]
  decide

lemma process_farHospital :
    processFacilities [farHospitalElement] "health" 0 0 = [farFacility] := by
  unfold processFacilities
  rw [show List.mapIdx (fun index e => buildFacility "health" 0 0 index e)
      [farHospitalElement] = [farFacility] from by
    simp [List.mapIdx_cons, List.mapIdx_nil, build_farHospital]]
  rw [show List.filter
      (fun f => decide (f.distance ≤ filterMaxDistance f.category)) [farFacility] =
      [farFacility] from by
    simp only [List.filter_cons, List.filter_nil]
    rw [if_pos]
    exact decide_eq_true_iff.mpr (by norm_num [farFacility, filterMaxDistance])]
  unfold dedupeFacilities dedupeById
  simp [dedupeStep, dedupeByIdStep, List.findIdx?]

/-- Claim C7 counterexample: an `amenity=hospital` element whose true
distance from the origin is strictly between 1000 m and 1000.5 m is
retained by `processFacilities` (its rounded distance is 1000 ≤ 1000), yet
its contribution is 0, below the floor 0.1 * maxContribution = 1. -/
theorem claim_C7_counterexample :
    processFacilities [farHospitalElement] "health" 0 0 = [farFacility] ∧
    farFacility.contribution = 0 ∧
    ¬ (0.1 * (configFor farFacility.category).maxContribution ≤ farFacility.contribution) := by
  refine ⟨process_farHospital, rfl, ?_⟩
  norm_num [farFacility, configFor_health]

lemma mem_mapIdx_exists {α β : Type} (g : ℕ → α → β) :
    ∀ (l : List α) (x : β), x ∈ List.mapIdx g l → ∃ i a, a ∈ l ∧ x = g i a := by
  intro l
  induction l generalizing g with
  | nil =>
    intro x hx
    simp [List.mapIdx_nil] at hx
  | cons a rest ih =>
    intro x hx
    rw [List.mapIdx_cons] at hx
    rcases List.mem_cons.mp hx with h | h
    · exact ⟨0, a, List.mem_cons_self a rest, h⟩
    · obtain ⟨i, b, hb, hxe⟩ := ih (fun i => g (i + 1)) x h
      exact ⟨i + 1, b, List.mem_cons_of_mem a hb, hxe⟩

lemma mem_of_mem_dedupeStep_foldl :
    ∀ (l acc : List Facility) (x : Facility),
      x ∈ List.foldl dedupeStep acc l → x ∈ acc ∨ x ∈ l := by
  intro l
  induction l with
  | nil =>
    intro acc x hx
    exact Or.inl hx
  | cons f rest ih =>
    intro acc x hx
    rw [List.foldl_cons] at hx
    rcases ih (dedupeStep acc f) x hx with h | h
    · unfold dedupeStep at h
      rcases hidx : List.findIdx? (fun existing => isDuplicateB existing f) acc with _ | i
      · rw [hidx] at h
        rcases List.mem_append.mp h with h' | h'
        · exact Or.inl h'
        · exact Or.inr (List.mem_cons.mpr (Or.inl (List.mem_singleton.mp h')))
      · rw [hidx] at h
        have h2 : x ∈ (if f.contribution > (acc.getD i f).contribution
            then acc.set i f else acc) := h
        by_cases hcmp : f.contribution > (acc.getD i f).contribution
        · rw [if_pos hcmp] at h2
          rcases List.mem_or_eq_of_mem_set h2 with h' | h'
          · exact Or.inl h'
          · exact Or.inr (List.mem_cons.mpr (Or.inl h'))
        · rw [if_neg hcmp] at h2
          exact Or.inl h2
    · exact Or.inr (List.mem_cons_of_mem f h)

lemma mem_of_mem_dedupeById :
    ∀ (l acc : List Facility) (x : Facility),
      x ∈ List.foldl dedupeByIdStep acc l → x ∈ acc ∨ x ∈ l := by
  intro l
  induction l with
  | nil =>
    intro acc x hx
    exact Or.inl hx
  | cons f rest ih =>
    intro acc x hx
    rw [List.foldl_cons] at hx
    rcases ih (dedupeByIdStep acc f) x hx with h | h
    · unfold dedupeByIdStep at h
      rcases hidx : List.findIdx? (fun existing => existing.id == f.id) acc with _ | i
      · rw [hidx] at h
        rcases List.mem_append.mp h with h' | h'
        · exact Or.inl h'
        · exact Or.inr (List.mem_cons.mpr (Or.inl (List.mem_singleton.mp h')))
      · rw [hidx] at h
        exact Or.inl h
    · exact Or.inr (List.mem_cons_of_mem f h)

lemma buildFacility_contribution_eq (c : String) (u v : ℝ) (i : ℕ) (e : Element) :
    (buildFacility c u v i e).contribution =
      calculateDistanceContribution (calculateDistance u v (elementLat e) (elementLng e))
        ((buildFacility c u v i e).category) := rfl

/-- Claim C7 amended: every facility retained by `processFacilities` has
contribution at least 0.1 * maxContribution of its classified category OR
contribution exactly 0; the zero case occurs exactly when the unrounded
distance exceeds the category's max distance while the rounded distance
passes the filter (distances in (1000, 1000.5)). -/
theorem claim_C7_contribution_floor_or_zero (elements : List Element) (category : String)
    (userLat userLng : ℝ) (f : Facility)
    (hf : f ∈ processFacilities elements category userLat userLng) :
    0.1 * (configFor f.category).maxContribution ≤ f.contribution ∨ f.contribution = 0 := by
  unfold processFacilities at hf
  rcases mem_of_mem_dedupeById _ _ _ hf with h | h
  · exact absurd h (List.not_mem_nil f)
  · rcases mem_of_mem_dedupeStep_foldl _ _ _ h with h' | h'
    · exact absurd h' (List.not_mem_nil f)
    · have hmap := (List.mem_filter.mp h').1
      obtain ⟨i, e, _, hfe⟩ := mem_mapIdx_exists _ _ _ hmap
      rw [hfe, buildFacility_contribution_eq]
      exact cdc_floor_or_zero _ _

/-- Witness for the amended C7: the hospital facility at the origin
(contribution 10 ≥ 1). -/
theorem claim_C7_witness :
    0.1 * (configFor hospitalFacility.category).maxContribution ≤
      hospitalFacility.contribution ∨ hospitalFacility.contribution = 0 :=
  claim_C7_contribution_floor_or_zero [hospitalElement] "safety" 0 0 hospitalFacility
    (by rw [process_hospital_at_origin]; exact List.mem_singleton_self _)
